import Mathlib

/-!
Shallow embedding of the `oci-iot-mcp-server` sources
(`oracle/oci_iot_mcp_server/server.py` and `health.py`).

External actions (environment variables, the OCI configuration file, key
and token files, signer/client construction, and the remote SDK calls)
are supplied by a `World` record of functions; fallible Python steps
become `Except Exn`; the process-wide global `_iot_client` becomes an
explicit `ServerState`; observable actions (env reads, file reads, log
entries, remote calls) are recorded in an `Effect` trace.
-/

namespace OciIotMcp

/-! ### Python `str.split(sep, 1)` -/

/-- Splits a character list at the first occurrence of `sep`, returning
the parts before and after it, or `none` when `sep` does not occur.
Mirrors the search that Python's `str.split(sep, 1)` performs. -/
def findSplit (sep : List Char) : List Char → Option (List Char × List Char)
  | [] => if sep.isEmpty then some ([], []) else none
  | c :: rest =>
    if List.isPrefixOf sep (c :: rest) then
      some ([], List.drop sep.length (c :: rest))
    else
      (findSplit sep rest).map (fun p => (c :: p.1, p.2))

/-- Python `s.split(sep, 1)`: `[s]` when `sep` does not occur in `s`,
otherwise the two parts around the first occurrence. -/
def pySplit1 (s sep : String) : List String :=
  match findSplit sep.data s.data with
  | none => [s]
  | some (a, b) => [String.mk a, String.mk b]

/-- The user-agent derivation of `server.py` line 58:
`__project__.split("oracle.", 1)[1].split("-server", 1)[0]`.
`none` models the `IndexError` raised by `[1]` when `"oracle."` does not
occur in the project name. -/
def userAgentName (project : String) : Option String :=
  ((pySplit1 project "oracle.").get? 1).bind
    (fun after => (pySplit1 after "-server").get? 0)

/-! ### Exceptions, data model, effects -/

/-- The exception classes distinguished by `server.py`'s `except` clauses,
plus `keyError` for Python dict lookups and `otherError` for everything
caught only by the generic `except Exception`. -/
inductive ExnKind
  | configFileNotFound
  | invalidConfig
  | serviceError
  | keyError
  | otherError
deriving DecidableEq, Repr

/-- A Python exception: its class together with its message. -/
structure Exn where
  kind : ExnKind
  msg : String
deriving DecidableEq, Repr

deriving instance DecidableEq for Except

/-- The OCI configuration dict returned by `oci.config.from_file`. -/
abbrev Config : Type := List (String × String)

/-- Python dict read `d[k]`: `KeyError` when the key is absent. -/
def dictGet (d : Config) (k : String) : Except Exn String :=
  match List.lookup k d with
  | some v => Except.ok v
  | none => Except.error ⟨ExnKind.keyError, k⟩

/-- Python dict write `d[k] = v`: replace an existing binding, else append. -/
def dictSet (d : Config) (k v : String) : Config :=
  if (List.lookup k d).isSome then
    List.map (fun p => if p.1 = k then (k, v) else p) d
  else
    d ++ [(k, v)]

/-- `oci.auth.signers.SecurityTokenSigner(token, private_key)`. -/
structure Signer where
  token : String
  privateKey : String
deriving DecidableEq, Repr

/-- `oci.iot.IotClient(config, signer=signer)`: the opaque authenticated
client handle, determined by what it was built from. -/
structure IotClient where
  config : Config
  signer : Signer
deriving DecidableEq

/-- A response payload: a single object for `get`-style operations or an
ordered collection for `list`-style operations. -/
inductive Datum
  | obj (payload : String)
  | coll (items : List String)
deriving DecidableEq, Repr

/-- The SDK response object; the tools return only its `data` field. -/
structure RemoteResponse where
  status : Nat
  data : Datum
deriving DecidableEq, Repr

/-- Observable actions of the embedded code, in program order. -/
inductive Effect
  | envRead (name : String)
  | configLoad (profile : String)
  | keyLoad (path : String)
  | fileRead (path : String)
  | logInfo (msg : String)
  | logError (msg : String)
  | remoteCall (op : String) (arg : String)
deriving DecidableEq, Repr

/-- The process-wide state: the global `_iot_client` of `server.py`. -/
structure ServerState where
  iot_client : Option IotClient
deriving DecidableEq

/-- Everything outside this repository: package constants, the process
environment, the configuration file, the key/token files, possible
failures of signer/client construction, and the remote IoT service. -/
structure World where
  project : String
  version : String
  env : String → Option String
  config_from_file : String → Except Exn Config
  load_private_key : String → Except Exn String
  read_file : String → Except Exn String
  signer_fail : String → String → Option Exn
  client_fail : Config → Signer → Option Exn
  remote : IotClient → String → String → Except Exn RemoteResponse

/-! ### The client factory (`get_iot_client`, server.py lines 30-78) -/

/-- The error log entry emitted by `get_iot_client`'s `except` clauses,
chosen by exception class. -/
def factoryErrorLog (e : Exn) : Effect :=
  match e.kind with
  | ExnKind.configFileNotFound => Effect.logError ("OCI config file not found: " ++ e.msg)
  | ExnKind.invalidConfig => Effect.logError ("Invalid OCI configuration: " ++ e.msg)
  | _ => Effect.logError ("Error creating IoT client: " ++ e.msg)

/-- Lines 47-49: `if profile_name is None: profile_name =
os.getenv("OCI_CONFIG_PROFILE", "DEFAULT")`. -/
def resolveProfile (w : World) (profile_name : Option String) : String :=
  match profile_name with
  | none => (w.env "OCI_CONFIG_PROFILE").getD "DEFAULT"
  | some p => p

/-- The environment read performed by lines 47-49, which happens exactly
when `profile_name` is `None`. -/
def envEffect (profile_name : Option String) : List Effect :=
  match profile_name with
  | none => [Effect.envRead "OCI_CONFIG_PROFILE"]
  | some _ => []

/-- The keyword default of `get_iot_client`'s `profile_name` parameter
(line 30), used by every tool call site. -/
def defaultProfileArg : Option String := some "INTWIM-IAD-IOT"

/-- The `try` block of `get_iot_client` (lines 55-69): builds the client
from the configuration for `profile`, without touching process state.
Returns the result together with the effects performed, the error log of
the matching `except` clause included on failure. -/
def create_iot_client (w : World) (profile : String) :
    Except Exn IotClient × List Effect :=
  let e0 : List Effect := [Effect.logInfo ("Creating IoT client for profile: " ++ profile)]
  match w.config_from_file profile with
  | Except.error e => (Except.error e, e0 ++ [Effect.configLoad profile, factoryErrorLog e])
  | Except.ok config0 =>
    let e1 := e0 ++ [Effect.configLoad profile]
    match userAgentName w.project with
    | none =>
      let e : Exn := ⟨ExnKind.otherError, "list index out of range"⟩
      (Except.error e, e1 ++ [factoryErrorLog e])
    | some ua =>
      let config := dictSet config0 "additional_user_agent" (ua ++ "/" ++ w.version)
      match dictGet config "key_file" with
      | Except.error e => (Except.error e, e1 ++ [factoryErrorLog e])
      | Except.ok key_file =>
        match w.load_private_key key_file with
        | Except.error e => (Except.error e, e1 ++ [Effect.keyLoad key_file, factoryErrorLog e])
        | Except.ok private_key =>
          let e2 := e1 ++ [Effect.keyLoad key_file]
          match dictGet config "security_token_file" with
          | Except.error e => (Except.error e, e2 ++ [factoryErrorLog e])
          | Except.ok token_file =>
            match w.read_file token_file with
            | Except.error e => (Except.error e, e2 ++ [Effect.fileRead token_file, factoryErrorLog e])
            | Except.ok token =>
              let e3 := e2 ++ [Effect.fileRead token_file]
              match w.signer_fail token private_key with
              | some e => (Except.error e, e3 ++ [factoryErrorLog e])
              | none =>
                let signer : Signer := ⟨token, private_key⟩
                match w.client_fail config signer with
                | some e => (Except.error e, e3 ++ [factoryErrorLog e])
                | none =>
                  (Except.ok ⟨config, signer⟩,
                   e3 ++ [Effect.logInfo "IoT client created successfully"])

/-- `get_iot_client(profile_name)` (lines 30-78): resolve the profile
(reading the environment when the argument is `None`), return the cached
client if the global is set, otherwise run the construction `try` block
and cache the client exactly when it fully succeeds. -/
def get_iot_client (w : World) (profile_name : Option String) (st : ServerState) :
    Except Exn IotClient × ServerState × List Effect :=
  let profile := resolveProfile w profile_name
  match st.iot_client with
  | some c => (Except.ok c, st, envEffect profile_name)
  | none =>
    match create_iot_client w profile with
    | (Except.ok c, effs) =>
      (Except.ok c, { st with iot_client := some c }, envEffect profile_name ++ effs)
    | (Except.error e, effs) =>
      (Except.error e, st, envEffect profile_name ++ effs)


/-! ### The tool dispatch layer (one def per MCP tool of server.py) -/

/-- Tool `get_digital_twin_adapter` (server.py lines 83-93): acquire the client,
invoke the one remote operation, return its `data`; on any exception log
one error entry naming the identifier and re-raise. -/
def get_digital_twin_adapter (w : World) (st : ServerState) (digital_twin_adapter_id : String) :
    Except Exn Datum × ServerState × List Effect :=
  match get_iot_client w defaultProfileArg st with
  | (Except.error e, st1, effs) =>
    (Except.error e, st1,
     effs ++ [Effect.logError ("Error getting digital twin adapter " ++ digital_twin_adapter_id ++ ": " ++ e.msg)])
  | (Except.ok c, st1, effs) =>
    match w.remote c "get_digital_twin_adapter" digital_twin_adapter_id with
    | Except.error e =>
      (Except.error e, st1,
       effs ++ [Effect.remoteCall "get_digital_twin_adapter" digital_twin_adapter_id,
                Effect.logError ("Error getting digital twin adapter " ++ digital_twin_adapter_id ++ ": " ++ e.msg)])
    | Except.ok resp =>
      (Except.ok resp.data, st1,
       effs ++ [Effect.remoteCall "get_digital_twin_adapter" digital_twin_adapter_id])

/-- Tool `get_digital_twin_instance` (server.py lines 98-108): acquire the client,
invoke the one remote operation, return its `data`; on any exception log
one error entry naming the identifier and re-raise. -/
def get_digital_twin_instance (w : World) (st : ServerState) (digital_twin_instance_id : String) :
    Except Exn Datum × ServerState × List Effect :=
  match get_iot_client w defaultProfileArg st with
  | (Except.error e, st1, effs) =>
    (Except.error e, st1,
     effs ++ [Effect.logError ("Error getting digital twin instance " ++ digital_twin_instance_id ++ ": " ++ e.msg)])
  | (Except.ok c, st1, effs) =>
    match w.remote c "get_digital_twin_instance" digital_twin_instance_id with
    | Except.error e =>
      (Except.error e, st1,
       effs ++ [Effect.remoteCall "get_digital_twin_instance" digital_twin_instance_id,
                Effect.logError ("Error getting digital twin instance " ++ digital_twin_instance_id ++ ": " ++ e.msg)])
    | Except.ok resp =>
      (Except.ok resp.data, st1,
       effs ++ [Effect.remoteCall "get_digital_twin_instance" digital_twin_instance_id])

/-- Tool `get_digital_twin_instance_content` (server.py lines 113-123): acquire the client,
invoke the one remote operation, return its `data`; on any exception log
one error entry naming the identifier and re-raise. -/
def get_digital_twin_instance_content (w : World) (st : ServerState) (digital_twin_instance_id : String) :
    Except Exn Datum × ServerState × List Effect :=
  match get_iot_client w defaultProfileArg st with
  | (Except.error e, st1, effs) =>
    (Except.error e, st1,
     effs ++ [Effect.logError ("Error getting digital twin instance content " ++ digital_twin_instance_id ++ ": " ++ e.msg)])
  | (Except.ok c, st1, effs) =>
    match w.remote c "get_digital_twin_instance_content" digital_twin_instance_id with
    | Except.error e =>
      (Except.error e, st1,
       effs ++ [Effect.remoteCall "get_digital_twin_instance_content" digital_twin_instance_id,
                Effect.logError ("Error getting digital twin instance content " ++ digital_twin_instance_id ++ ": " ++ e.msg)])
    | Except.ok resp =>
      (Except.ok resp.data, st1,
       effs ++ [Effect.remoteCall "get_digital_twin_instance_content" digital_twin_instance_id])

/-- Tool `get_digital_twin_model` (server.py lines 128-138): acquire the client,
invoke the one remote operation, return its `data`; on any exception log
one error entry naming the identifier and re-raise. -/
def get_digital_twin_model (w : World) (st : ServerState) (digital_twin_model_id : String) :
    Except Exn Datum × ServerState × List Effect :=
  match get_iot_client w defaultProfileArg st with
  | (Except.error e, st1, effs) =>
    (Except.error e, st1,
     effs ++ [Effect.logError ("Error getting digital twin model " ++ digital_twin_model_id ++ ": " ++ e.msg)])
  | (Except.ok c, st1, effs) =>
    match w.remote c "get_digital_twin_model" digital_twin_model_id with
    | Except.error e =>
      (Except.error e, st1,
       effs ++ [Effect.remoteCall "get_digital_twin_model" digital_twin_model_id,
                Effect.logError ("Error getting digital twin model " ++ digital_twin_model_id ++ ": " ++ e.msg)])
    | Except.ok resp =>
      (Except.ok resp.data, st1,
       effs ++ [Effect.remoteCall "get_digital_twin_model" digital_twin_model_id])

/-- Tool `get_digital_twin_model_spec` (server.py lines 143-153): acquire the client,
invoke the one remote operation, return its `data`; on any exception log
one error entry naming the identifier and re-raise. -/
def get_digital_twin_model_spec (w : World) (st : ServerState) (digital_twin_model_id : String) :
    Except Exn Datum × ServerState × List Effect :=
  match get_iot_client w defaultProfileArg st with
  | (Except.error e, st1, effs) =>
    (Except.error e, st1,
     effs ++ [Effect.logError ("Error getting digital twin model spec " ++ digital_twin_model_id ++ ": " ++ e.msg)])
  | (Except.ok c, st1, effs) =>
    match w.remote c "get_digital_twin_model_spec" digital_twin_model_id with
    | Except.error e =>
      (Except.error e, st1,
       effs ++ [Effect.remoteCall "get_digital_twin_model_spec" digital_twin_model_id,
                Effect.logError ("Error getting digital twin model spec " ++ digital_twin_model_id ++ ": " ++ e.msg)])
    | Except.ok resp =>
      (Except.ok resp.data, st1,
       effs ++ [Effect.remoteCall "get_digital_twin_model_spec" digital_twin_model_id])

/-- Tool `get_digital_twin_relationship` (server.py lines 158-168): acquire the client,
invoke the one remote operation, return its `data`; on any exception log
one error entry naming the identifier and re-raise. -/
def get_digital_twin_relationship (w : World) (st : ServerState) (digital_twin_relationship_id : String) :
    Except Exn Datum × ServerState × List Effect :=
  match get_iot_client w defaultProfileArg st with
  | (Except.error e, st1, effs) =>
    (Except.error e, st1,
     effs ++ [Effect.logError ("Error getting digital twin relationship " ++ digital_twin_relationship_id ++ ": " ++ e.msg)])
  | (Except.ok c, st1, effs) =>
    match w.remote c "get_digital_twin_relationship" digital_twin_relationship_id with
    | Except.error e =>
      (Except.error e, st1,
       effs ++ [Effect.remoteCall "get_digital_twin_relationship" digital_twin_relationship_id,
                Effect.logError ("Error getting digital twin relationship " ++ digital_twin_relationship_id ++ ": " ++ e.msg)])
    | Except.ok resp =>
      (Except.ok resp.data, st1,
       effs ++ [Effect.remoteCall "get_digital_twin_relationship" digital_twin_relationship_id])

/-- Tool `get_iot_domain` (server.py lines 173-183): acquire the client,
invoke the one remote operation, return its `data`; on any exception log
one error entry naming the identifier and re-raise. -/
def get_iot_domain (w : World) (st : ServerState) (iot_domain_id : String) :
    Except Exn Datum × ServerState × List Effect :=
  match get_iot_client w defaultProfileArg st with
  | (Except.error e, st1, effs) =>
    (Except.error e, st1,
     effs ++ [Effect.logError ("Error getting IoT domain " ++ iot_domain_id ++ ": " ++ e.msg)])
  | (Except.ok c, st1, effs) =>
    match w.remote c "get_iot_domain" iot_domain_id with
    | Except.error e =>
      (Except.error e, st1,
       effs ++ [Effect.remoteCall "get_iot_domain" iot_domain_id,
                Effect.logError ("Error getting IoT domain " ++ iot_domain_id ++ ": " ++ e.msg)])
    | Except.ok resp =>
      (Except.ok resp.data, st1,
       effs ++ [Effect.remoteCall "get_iot_domain" iot_domain_id])

/-- Tool `get_iot_domain_group` (server.py lines 188-198): acquire the client,
invoke the one remote operation, return its `data`; on any exception log
one error entry naming the identifier and re-raise. -/
def get_iot_domain_group (w : World) (st : ServerState) (iot_domain_group_id : String) :
    Except Exn Datum × ServerState × List Effect :=
  match get_iot_client w defaultProfileArg st with
  | (Except.error e, st1, effs) =>
    (Except.error e, st1,
     effs ++ [Effect.logError ("Error getting IoT domain group " ++ iot_domain_group_id ++ ": " ++ e.msg)])
  | (Except.ok c, st1, effs) =>
    match w.remote c "get_iot_domain_group" iot_domain_group_id with
    | Except.error e =>
      (Except.error e, st1,
       effs ++ [Effect.remoteCall "get_iot_domain_group" iot_domain_group_id,
                Effect.logError ("Error getting IoT domain group " ++ iot_domain_group_id ++ ": " ++ e.msg)])
    | Except.ok resp =>
      (Except.ok resp.data, st1,
       effs ++ [Effect.remoteCall "get_iot_domain_group" iot_domain_group_id])

/-- Tool `get_work_request` (server.py lines 203-213): acquire the client,
invoke the one remote operation, return its `data`; on any exception log
one error entry naming the identifier and re-raise. -/
def get_work_request (w : World) (st : ServerState) (work_request_id : String) :
    Except Exn Datum × ServerState × List Effect :=
  match get_iot_client w defaultProfileArg st with
  | (Except.error e, st1, effs) =>
    (Except.error e, st1,
     effs ++ [Effect.logError ("Error getting work request " ++ work_request_id ++ ": " ++ e.msg)])
  | (Except.ok c, st1, effs) =>
    match w.remote c "get_work_request" work_request_id with
    | Except.error e =>
      (Except.error e, st1,
       effs ++ [Effect.remoteCall "get_work_request" work_request_id,
                Effect.logError ("Error getting work request " ++ work_request_id ++ ": " ++ e.msg)])
    | Except.ok resp =>
      (Except.ok resp.data, st1,
       effs ++ [Effect.remoteCall "get_work_request" work_request_id])

/-- Tool `list_digital_twin_adapters` (server.py lines 218-228): acquire the client,
invoke the one remote operation, return its `data`; on any exception log
one error entry naming the identifier and re-raise. -/
def list_digital_twin_adapters (w : World) (st : ServerState) (iot_domain_id : String) :
    Except Exn Datum × ServerState × List Effect :=
  match get_iot_client w defaultProfileArg st with
  | (Except.error e, st1, effs) =>
    (Except.error e, st1,
     effs ++ [Effect.logError ("Error listing digital twin adapters for domain " ++ iot_domain_id ++ ": " ++ e.msg)])
  | (Except.ok c, st1, effs) =>
    match w.remote c "list_digital_twin_adapters" iot_domain_id with
    | Except.error e =>
      (Except.error e, st1,
       effs ++ [Effect.remoteCall "list_digital_twin_adapters" iot_domain_id,
                Effect.logError ("Error listing digital twin adapters for domain " ++ iot_domain_id ++ ": " ++ e.msg)])
    | Except.ok resp =>
      (Except.ok resp.data, st1,
       effs ++ [Effect.remoteCall "list_digital_twin_adapters" iot_domain_id])

/-- Tool `list_digital_twin_models` (server.py lines 233-243): acquire the client,
invoke the one remote operation, return its `data`; on any exception log
one error entry naming the identifier and re-raise. -/
def list_digital_twin_models (w : World) (st : ServerState) (iot_domain_id : String) :
    Except Exn Datum × ServerState × List Effect :=
  match get_iot_client w defaultProfileArg st with
  | (Except.error e, st1, effs) =>
    (Except.error e, st1,
     effs ++ [Effect.logError ("Error listing digital twin models for domain " ++ iot_domain_id ++ ": " ++ e.msg)])
  | (Except.ok c, st1, effs) =>
    match w.remote c "list_digital_twin_models" iot_domain_id with
    | Except.error e =>
      (Except.error e, st1,
       effs ++ [Effect.remoteCall "list_digital_twin_models" iot_domain_id,
                Effect.logError ("Error listing digital twin models for domain " ++ iot_domain_id ++ ": " ++ e.msg)])
    | Except.ok resp =>
      (Except.ok resp.data, st1,
       effs ++ [Effect.remoteCall "list_digital_twin_models" iot_domain_id])

/-- Tool `list_digital_twin_instances` (server.py lines 248-258): acquire the client,
invoke the one remote operation, return its `data`; on any exception log
one error entry naming the identifier and re-raise. -/
def list_digital_twin_instances (w : World) (st : ServerState) (iot_domain_id : String) :
    Except Exn Datum × ServerState × List Effect :=
  match get_iot_client w defaultProfileArg st with
  | (Except.error e, st1, effs) =>
    (Except.error e, st1,
     effs ++ [Effect.logError ("Error listing digital twin instances for domain " ++ iot_domain_id ++ ": " ++ e.msg)])
  | (Except.ok c, st1, effs) =>
    match w.remote c "list_digital_twin_instances" iot_domain_id with
    | Except.error e =>
      (Except.error e, st1,
       effs ++ [Effect.remoteCall "list_digital_twin_instances" iot_domain_id,
                Effect.logError ("Error listing digital twin instances for domain " ++ iot_domain_id ++ ": " ++ e.msg)])
    | Except.ok resp =>
      (Except.ok resp.data, st1,
       effs ++ [Effect.remoteCall "list_digital_twin_instances" iot_domain_id])

/-- Tool `list_digital_twin_relationships` (server.py lines 263-273): acquire the client,
invoke the one remote operation, return its `data`; on any exception log
one error entry naming the identifier and re-raise. -/
def list_digital_twin_relationships (w : World) (st : ServerState) (iot_domain_id : String) :
    Except Exn Datum × ServerState × List Effect :=
  match get_iot_client w defaultProfileArg st with
  | (Except.error e, st1, effs) =>
    (Except.error e, st1,
     effs ++ [Effect.logError ("Error listing digital twin relationships for domain " ++ iot_domain_id ++ ": " ++ e.msg)])
  | (Except.ok c, st1, effs) =>
    match w.remote c "list_digital_twin_relationships" iot_domain_id with
    | Except.error e =>
      (Except.error e, st1,
       effs ++ [Effect.remoteCall "list_digital_twin_relationships" iot_domain_id,
                Effect.logError ("Error listing digital twin relationships for domain " ++ iot_domain_id ++ ": " ++ e.msg)])
    | Except.ok resp =>
      (Except.ok resp.data, st1,
       effs ++ [Effect.remoteCall "list_digital_twin_relationships" iot_domain_id])

/-- Tool `list_iot_domain_groups` (server.py lines 278-288): acquire the client,
invoke the one remote operation, return its `data`; on any exception log
one error entry naming the identifier and re-raise. -/
def list_iot_domain_groups (w : World) (st : ServerState) (compartment_id : String) :
    Except Exn Datum × ServerState × List Effect :=
  match get_iot_client w defaultProfileArg st with
  | (Except.error e, st1, effs) =>
    (Except.error e, st1,
     effs ++ [Effect.logError ("Error listing IoT domain groups for compartment " ++ compartment_id ++ ": " ++ e.msg)])
  | (Except.ok c, st1, effs) =>
    match w.remote c "list_iot_domain_groups" compartment_id with
    | Except.error e =>
      (Except.error e, st1,
       effs ++ [Effect.remoteCall "list_iot_domain_groups" compartment_id,
                Effect.logError ("Error listing IoT domain groups for compartment " ++ compartment_id ++ ": " ++ e.msg)])
    | Except.ok resp =>
      (Except.ok resp.data, st1,
       effs ++ [Effect.remoteCall "list_iot_domain_groups" compartment_id])

/-- Tool `list_iot_domains` (server.py lines 293-303): acquire the client,
invoke the one remote operation, return its `data`; on any exception log
one error entry naming the identifier and re-raise. -/
def list_iot_domains (w : World) (st : ServerState) (compartment_id : String) :
    Except Exn Datum × ServerState × List Effect :=
  match get_iot_client w defaultProfileArg st with
  | (Except.error e, st1, effs) =>
    (Except.error e, st1,
     effs ++ [Effect.logError ("Error listing IoT domains for compartment " ++ compartment_id ++ ": " ++ e.msg)])
  | (Except.ok c, st1, effs) =>
    match w.remote c "list_iot_domains" compartment_id with
    | Except.error e =>
      (Except.error e, st1,
       effs ++ [Effect.remoteCall "list_iot_domains" compartment_id,
                Effect.logError ("Error listing IoT domains for compartment " ++ compartment_id ++ ": " ++ e.msg)])
    | Except.ok resp =>
      (Except.ok resp.data, st1,
       effs ++ [Effect.remoteCall "list_iot_domains" compartment_id])

/-- Tool `list_work_request_errors` (server.py lines 308-318): acquire the client,
invoke the one remote operation, return its `data`; on any exception log
one error entry naming the identifier and re-raise. -/
def list_work_request_errors (w : World) (st : ServerState) (work_request_id : String) :
    Except Exn Datum × ServerState × List Effect :=
  match get_iot_client w defaultProfileArg st with
  | (Except.error e, st1, effs) =>
    (Except.error e, st1,
     effs ++ [Effect.logError ("Error listing work request errors for " ++ work_request_id ++ ": " ++ e.msg)])
  | (Except.ok c, st1, effs) =>
    match w.remote c "list_work_request_errors" work_request_id with
    | Except.error e =>
      (Except.error e, st1,
       effs ++ [Effect.remoteCall "list_work_request_errors" work_request_id,
                Effect.logError ("Error listing work request errors for " ++ work_request_id ++ ": " ++ e.msg)])
    | Except.ok resp =>
      (Except.ok resp.data, st1,
       effs ++ [Effect.remoteCall "list_work_request_errors" work_request_id])

/-- Tool `list_work_request_logs` (server.py lines 323-333): acquire the client,
invoke the one remote operation, return its `data`; on any exception log
one error entry naming the identifier and re-raise. -/
def list_work_request_logs (w : World) (st : ServerState) (work_request_id : String) :
    Except Exn Datum × ServerState × List Effect :=
  match get_iot_client w defaultProfileArg st with
  | (Except.error e, st1, effs) =>
    (Except.error e, st1,
     effs ++ [Effect.logError ("Error listing work request logs for " ++ work_request_id ++ ": " ++ e.msg)])
  | (Except.ok c, st1, effs) =>
    match w.remote c "list_work_request_logs" work_request_id with
    | Except.error e =>
      (Except.error e, st1,
       effs ++ [Effect.remoteCall "list_work_request_logs" work_request_id,
                Effect.logError ("Error listing work request logs for " ++ work_request_id ++ ": " ++ e.msg)])
    | Except.ok resp =>
      (Except.ok resp.data, st1,
       effs ++ [Effect.remoteCall "list_work_request_logs" work_request_id])

/-- Tool `list_work_requests` (server.py lines 338-348): acquire the client,
invoke the one remote operation, return its `data`; on any exception log
one error entry naming the identifier and re-raise. -/
def list_work_requests (w : World) (st : ServerState) (compartment_id : String) :
    Except Exn Datum × ServerState × List Effect :=
  match get_iot_client w defaultProfileArg st with
  | (Except.error e, st1, effs) =>
    (Except.error e, st1,
     effs ++ [Effect.logError ("Error listing work requests for compartment " ++ compartment_id ++ ": " ++ e.msg)])
  | (Except.ok c, st1, effs) =>
    match w.remote c "list_work_requests" compartment_id with
    | Except.error e =>
      (Except.error e, st1,
       effs ++ [Effect.remoteCall "list_work_requests" compartment_id,
                Effect.logError ("Error listing work requests for compartment " ++ compartment_id ++ ": " ++ e.msg)])
    | Except.ok resp =>
      (Except.ok resp.data, st1,
       effs ++ [Effect.remoteCall "list_work_requests" compartment_id])


/-! ### Health endpoints -/

/-- `health_check` of server.py (lines 353-359): the returned dict, whose
`version` field is the package constant `__version__`. -/
def health_check (version : String) : List (String × String) :=
  [("status", "healthy"), ("service", "oci-iot-mcp-server"), ("version", version)]

/-- `health_check` of health.py (lines 17-23), whose `version` field is
the literal `"1.0.0"`. -/
def health_check_health_py : List (String × String) :=
  [("status", "healthy"), ("service", "oci-iot-mcp-server"), ("version", "1.0.0")]

/-! ### The tool table and effect counters -/

/-- The dispatch-layer tools of server.py, each paired with the name of
the one remote operation it invokes (health_check is not in the dispatch
layer: it touches neither the client factory nor the remote service). -/
def toolTable :
    List (String × (World → ServerState → String → Except Exn Datum × ServerState × List Effect)) :=
  [ ("get_digital_twin_adapter", get_digital_twin_adapter)
  , ("get_digital_twin_instance", get_digital_twin_instance)
  , ("get_digital_twin_instance_content", get_digital_twin_instance_content)
  , ("get_digital_twin_model", get_digital_twin_model)
  , ("get_digital_twin_model_spec", get_digital_twin_model_spec)
  , ("get_digital_twin_relationship", get_digital_twin_relationship)
  , ("get_iot_domain", get_iot_domain)
  , ("get_iot_domain_group", get_iot_domain_group)
  , ("get_work_request", get_work_request)
  , ("list_digital_twin_adapters", list_digital_twin_adapters)
  , ("list_digital_twin_models", list_digital_twin_models)
  , ("list_digital_twin_instances", list_digital_twin_instances)
  , ("list_digital_twin_relationships", list_digital_twin_relationships)
  , ("list_iot_domain_groups", list_iot_domain_groups)
  , ("list_iot_domains", list_iot_domains)
  , ("list_work_request_errors", list_work_request_errors)
  , ("list_work_request_logs", list_work_request_logs)
  , ("list_work_requests", list_work_requests) ]

/-- Is this effect a call to the remote service? -/
def isRemoteCall : Effect → Bool
  | Effect.remoteCall _ _ => true
  | _ => false

/-- Is this effect a log entry (any level)? -/
def isLogEntry : Effect → Bool
  | Effect.logInfo _ => true
  | Effect.logError _ => true
  | _ => false

/-- Is this effect an error-level log entry? -/
def isErrorLogEntry : Effect → Bool
  | Effect.logError _ => true
  | _ => false

/-- Number of remote calls in an effect trace. -/
def remoteCount (l : List Effect) : Nat := l.countP (fun e => isRemoteCall e)

/-- Number of log entries (any level) in an effect trace. -/
def logCount (l : List Effect) : Nat := l.countP (fun e => isLogEntry e)

/-- Number of error-level log entries in an effect trace. -/
def errorLogCount (l : List Effect) : Nat := l.countP (fun e => isErrorLogEntry e)

/-! ### Concrete worlds and states used to exercise the model -/

/-- A configuration as `oci.config.from_file` would return it. -/
def okConfig : Config :=
  [("key_file", "/home/u/key.pem"), ("security_token_file", "/home/u/token")]

/-- A world in which every external step succeeds. -/
def wOk : World :=
  { project := "oracle.oci-iot-mcp-server"
  , version := "1.0.0"
  , env := fun _ => none
  , config_from_file := fun _ => Except.ok okConfig
  , load_private_key := fun _ => Except.ok "PRIVATEKEY"
  , read_file := fun _ => Except.ok "TOKEN"
  , signer_fail := fun _ _ => none
  , client_fail := fun _ _ => none
  , remote := fun _ op arg => Except.ok ⟨200, Datum.obj (op ++ ":" ++ arg)⟩ }

/-- The `ConfigFileNotFound` exception of a missing configuration file. -/
def exnMissing : Exn := ⟨ExnKind.configFileNotFound, "missing config"⟩

/-- A world whose configuration file does not exist. -/
def wNoConfig : World :=
  { wOk with config_from_file := fun _ => Except.error exnMissing }

/-- A world with the profile-selection environment variable set. -/
def wEnvSet : World :=
  { wOk with env := fun n => if n = "OCI_CONFIG_PROFILE" then some "ENVPROF" else none }

/-- A world whose project name does not contain `"oracle."`. -/
def wNoOracle : World := { wOk with project := "noproject" }

/-- A world whose remote service rejects every call. -/
def wRemoteFail : World :=
  { wOk with remote := fun _ _ _ => Except.error ⟨ExnKind.serviceError, "404"⟩ }

/-- The client `get_iot_client` builds in `wOk`. -/
def createdClient : IotClient :=
  ⟨okConfig ++ [("additional_user_agent", "oci-iot-mcp/1.0.0")], ⟨"TOKEN", "PRIVATEKEY"⟩⟩

/-- An arbitrary already-cached client handle. -/
def cachedClient : IotClient := ⟨[("k", "v")], ⟨"t", "p"⟩⟩

/-- The process state before any client has been created. -/
def st0 : ServerState := ⟨none⟩

/-- A process state whose client cache is already populated. -/
def stCached : ServerState := ⟨some cachedClient⟩


/-! ### Helper lemmas about the factory -/

lemma get_iot_client_cached (w : World) (p : Option String) (st : ServerState)
    (c : IotClient) (h : st.iot_client = some c) :
    get_iot_client w p st = (Except.ok c, st, envEffect p) := by
  simp [get_iot_client, h]

lemma get_iot_client_uncached_ok (w : World) (p : Option String) (st : ServerState)
    (c : IotClient) (effs : List Effect) (h : st.iot_client = none)
    (hc : create_iot_client w (resolveProfile w p) = (Except.ok c, effs)) :
    get_iot_client w p st = (Except.ok c, ⟨some c⟩, envEffect p ++ effs) := by
  simp [get_iot_client, h, hc]

lemma get_iot_client_uncached_error (w : World) (p : Option String) (st : ServerState)
    (e : Exn) (effs : List Effect) (h : st.iot_client = none)
    (hc : create_iot_client w (resolveProfile w p) = (Except.error e, effs)) :
    get_iot_client w p st = (Except.error e, st, envEffect p ++ effs) := by
  simp [get_iot_client, h, hc]

lemma create_iot_client_config_error (w : World) (profile : String) (e : Exn)
    (h : w.config_from_file profile = Except.error e) :
    create_iot_client w profile =
      (Except.error e,
       [Effect.logInfo ("Creating IoT client for profile: " ++ profile),
        Effect.configLoad profile, factoryErrorLog e]) := by
  simp [create_iot_client, h]

/-! ### C1 -/

/-- Claim C1: the first successful call to `get_iot_client` stores the
built handle in the process-wide cache, and every call that finds the
cache set returns that identical cached handle unconditionally, for any
`profile_name`, leaving the cache unchanged. -/
theorem client_cache_write_once :
    (∀ (w : World) (p : Option String) (st : ServerState) (c : IotClient),
        st.iot_client = some c →
        (get_iot_client w p st).1 = Except.ok c ∧ (get_iot_client w p st).2.1 = st) ∧
    (∀ (w : World) (p : Option String) (st : ServerState) (c : IotClient),
        st.iot_client = none →
        (get_iot_client w p st).1 = Except.ok c →
        (get_iot_client w p st).2.1.iot_client = some c) := by
  constructor
  · intro w p st c h
    rw [get_iot_client_cached w p st c h]
    exact ⟨rfl, rfl⟩
  · intro w p st c h h2
    rcases hc : create_iot_client w (resolveProfile w p) with ⟨r, effs⟩
    cases r with
    | ok a =>
      rw [get_iot_client_uncached_ok w p st a effs h hc] at h2 ⊢
      simp only [Except.ok.injEq] at h2
      simp [h2]
    | error e =>
      rw [get_iot_client_uncached_error w p st e effs h hc] at h2
      exact absurd h2 (by simp)

/-- Witness for C1 at concrete inputs. -/
theorem client_cache_write_once_witness :
    ((get_iot_client wOk defaultProfileArg stCached).1 = Except.ok cachedClient ∧
      (get_iot_client wOk defaultProfileArg stCached).2.1 = stCached) ∧
    (get_iot_client wOk defaultProfileArg st0).2.1.iot_client = some createdClient :=
  ⟨client_cache_write_once.1 wOk defaultProfileArg stCached cachedClient rfl,
   client_cache_write_once.2 wOk defaultProfileArg st0 createdClient rfl (by decide)⟩

/-! ### C2 -/

/-- Claim C2: when client construction fails, `get_iot_client` re-raises
that same exception and the cache stays unset, so a subsequent call
behaves exactly like a fresh first call. -/
theorem factory_failure_cache_unset :
    (∀ (w : World) (p : Option String) (st : ServerState) (e : Exn),
        st.iot_client = none →
        (get_iot_client w p st).1 = Except.error e →
        (get_iot_client w p st).2.1 = st) ∧
    (∀ (w : World) (p : Option String) (st : ServerState) (e : Exn),
        st.iot_client = none →
        (create_iot_client w (resolveProfile w p)).1 = Except.error e →
        (get_iot_client w p st).1 = Except.error e) ∧
    (∀ (w : World) (p : Option String) (st : ServerState) (e : Exn),
        st.iot_client = none →
        w.config_from_file (resolveProfile w p) = Except.error e →
        (get_iot_client w p st).1 = Except.error e) ∧
    (∀ (w w2 : World) (p p2 : Option String) (st : ServerState) (e : Exn),
        st.iot_client = none →
        (get_iot_client w p st).1 = Except.error e →
        get_iot_client w2 p2 ((get_iot_client w p st).2.1) = get_iot_client w2 p2 st) := by
  have hstate : ∀ (w : World) (p : Option String) (st : ServerState) (e : Exn),
      st.iot_client = none →
      (get_iot_client w p st).1 = Except.error e →
      (get_iot_client w p st).2.1 = st := by
    intro w p st e h h2
    rcases hc : create_iot_client w (resolveProfile w p) with ⟨r, effs⟩
    cases r with
    | ok a =>
      rw [get_iot_client_uncached_ok w p st a effs h hc] at h2
      exact absurd h2 (by simp)
    | error e2 =>
      rw [get_iot_client_uncached_error w p st e2 effs h hc]
  have hcreate : ∀ (w : World) (p : Option String) (st : ServerState) (e : Exn),
      st.iot_client = none →
      (create_iot_client w (resolveProfile w p)).1 = Except.error e →
      (get_iot_client w p st).1 = Except.error e := by
    intro w p st e h h2
    rcases hc : create_iot_client w (resolveProfile w p) with ⟨r, effs⟩
    rw [hc] at h2
    cases r with
    | ok a => exact absurd h2 (by simp)
    | error e2 =>
      simp only [Except.error.injEq] at h2
      rw [get_iot_client_uncached_error w p st e2 effs h hc, h2]
  refine ⟨hstate, hcreate, ?_, ?_⟩
  · intro w p st e h h2
    exact hcreate w p st e h
      (by rw [create_iot_client_config_error w (resolveProfile w p) e h2])
  · intro w w2 p p2 st e h h2
    rw [hstate w p st e h h2]

/-- Witness for C2: a missing configuration file raises
`ConfigFileNotFound`, leaves the cache unset, and a subsequent call in a
healthy world succeeds as if it were the first. -/
theorem factory_failure_cache_unset_witness :
    (get_iot_client wNoConfig defaultProfileArg st0).2.1 = st0 ∧
    (get_iot_client wNoConfig defaultProfileArg st0).1 = Except.error exnMissing ∧
    get_iot_client wOk defaultProfileArg ((get_iot_client wNoConfig defaultProfileArg st0).2.1)
      = get_iot_client wOk defaultProfileArg st0 :=
  ⟨factory_failure_cache_unset.1 wNoConfig defaultProfileArg st0 exnMissing rfl (by decide),
   factory_failure_cache_unset.2.2.1 wNoConfig defaultProfileArg st0 exnMissing rfl (by decide),
   factory_failure_cache_unset.2.2.2 wNoConfig wOk defaultProfileArg defaultProfileArg st0
     exnMissing rfl (by decide)⟩

/-! ### C6 -/

/-- Claim C6: `health_check` (server.py) is a pure total function of the
version constant alone; it takes no process state and always returns the
payload with status "healthy", service "oci-iot-mcp-server" and the
current version. -/
theorem health_check_payload :
    ∀ version : String,
      health_check version =
        [("status", "healthy"), ("service", "oci-iot-mcp-server"), ("version", version)] ∧
      List.lookup "status" (health_check version) = some "healthy" ∧
      List.lookup "service" (health_check version) = some "oci-iot-mcp-server" ∧
      List.lookup "version" (health_check version) = some version := by
  intro v
  refine ⟨rfl, by simp [health_check, List.lookup], by simp [health_check, List.lookup],
    by simp [health_check, List.lookup]⟩

/-! ### C9 -/

/-- Claim C9: health.py's `health_check` hardcodes the literal version
"1.0.0", so its payload equals server.py's `health_check` payload exactly
when the package version constant is "1.0.0". -/
theorem health_py_version_literal :
    List.lookup "version" health_check_health_py = some "1.0.0" ∧
    ∀ version : String,
      (health_check_health_py = health_check version ↔ version = "1.0.0") := by
  constructor
  · simp [health_check_health_py, List.lookup]
  · intro v
    constructor
    · intro h
      have := congrArg (List.lookup "version") h
      simp [health_check, health_check_health_py, List.lookup] at this
      exact this.symm
    · intro h
      subst h
      rfl


/-! ### Lemmas about the split search and the user-agent derivation -/

lemma findSplit_sound (sep : List Char) :
    ∀ (s a b : List Char), findSplit sep s = some (a, b) → s = a ++ sep ++ b := by
  intro s
  induction s with
  | nil =>
    intro a b h
    simp only [findSplit] at h
    by_cases hs : sep.isEmpty
    · rw [if_pos hs] at h
      cases h
      simp [List.isEmpty_iff.mp hs]
    · rw [if_neg hs] at h
      exact absurd h (by simp)
  | cons c rest ih =>
    intro a b h
    simp only [findSplit] at h
    by_cases hp : List.isPrefixOf sep (c :: rest)
    · rw [if_pos hp] at h
      cases h
      obtain ⟨t, ht⟩ := List.isPrefixOf_iff_prefix.mp hp
      rw [← ht, List.drop_left]
      simp
    · rw [if_neg hp] at h
      obtain ⟨⟨a2, b2⟩, hfs, heq⟩ := Option.map_eq_some'.mp h
      obtain ⟨h1, h2⟩ := Prod.mk.injEq .. ▸ heq
      subst h2
      rw [← h1]
      simp [ih a2 b2 hfs]

lemma findSplit_exists (sep : List Char) :
    ∀ s : List Char, (findSplit sep s).isSome = true ↔ ∃ a b, s = a ++ sep ++ b := by
  intro s
  induction s with
  | nil =>
    constructor
    · intro h
      simp only [findSplit] at h
      by_cases hs : sep.isEmpty
      · exact ⟨[], [], by simp [List.isEmpty_iff.mp hs]⟩
      · rw [if_neg hs] at h
        simp at h
    · rintro ⟨a, b, hab⟩
      have h3 := List.append_eq_nil.mp (List.append_eq_nil.mp hab.symm).1
      simp [findSplit, List.isEmpty_iff, h3.2]
  | cons c rest ih =>
    constructor
    · intro h
      simp only [findSplit] at h
      by_cases hp : List.isPrefixOf sep (c :: rest)
      · obtain ⟨t, ht⟩ := List.isPrefixOf_iff_prefix.mp hp
        exact ⟨[], t, by simpa using ht.symm⟩
      · rw [if_neg hp, Option.isSome_map'] at h
        obtain ⟨a, b, hab⟩ := ih.mp h
        exact ⟨c :: a, b, by simp [hab]⟩
    · rintro ⟨a, b, hab⟩
      simp only [findSplit]
      by_cases hp : List.isPrefixOf sep (c :: rest)
      · simp [hp]
      · rw [if_neg hp, Option.isSome_map']
        apply ih.mpr
        cases a with
        | nil =>
          exfalso
          apply hp
          apply List.isPrefixOf_iff_prefix.mpr
          exact ⟨b, by simpa using hab.symm⟩
        | cons c2 a2 =>
          simp only [List.cons_append, List.cons.injEq] at hab
          exact ⟨a2, b, hab.2⟩

lemma userAgentName_isSome_iff (p : String) :
    (userAgentName p).isSome = true ↔
      ∃ a b : List Char, p.data = a ++ ("oracle.".data) ++ b := by
  rw [← findSplit_exists]
  unfold userAgentName
  cases h : findSplit "oracle.".data p.data with
  | none => simp [pySplit1, h]
  | some ab =>
    rcases ab with ⟨a, b⟩
    cases h2 : findSplit "-server".data b with
    | none => simp [pySplit1, h, h2]
    | some uv =>
      rcases uv with ⟨u, v⟩
      simp [pySplit1, h, h2]

lemma userAgentName_spec (p u : String) (h : userAgentName p = some u) :
    ∃ a b : List Char, p.data = a ++ ("oracle.".data) ++ b ∧
      (u.data = b ∨ ∃ v, b = u.data ++ ("-server".data) ++ v) := by
  unfold userAgentName at h
  cases h1 : findSplit "oracle.".data p.data with
  | none => simp [pySplit1, h1] at h
  | some ab =>
    rcases ab with ⟨a, b⟩
    have hab := findSplit_sound "oracle.".data p.data a b h1
    cases h2 : findSplit "-server".data b with
    | none =>
      simp [pySplit1, h1, h2] at h
      exact ⟨a, b, hab, Or.inl (by rw [← h])⟩
    | some uv =>
      rcases uv with ⟨x, v⟩
      have hxv := findSplit_sound "-server".data b x v h2
      simp [pySplit1, h1, h2] at h
      exact ⟨a, b, hab, Or.inr ⟨v, by rw [← h]; exact hxv⟩⟩

/-! ### Lemmas about the configuration dict -/

lemma lookup_set_found (k v : String) :
    ∀ d : Config, (List.lookup k d).isSome = true →
      List.lookup k (List.map (fun p => if p.1 = k then (k, v) else p) d) = some v := by
  intro d
  induction d with
  | nil => simp
  | cons hd tl ih =>
    rcases hd with ⟨a, b⟩
    by_cases hak : a = k
    · subst hak
      intro _
      simp [List.lookup_cons]
    · intro hs
      rw [List.lookup_cons] at hs
      have hka : (k == a) = false := by simp [Ne.symm hak]
      rw [hka] at hs
      simp only [List.map_cons, if_neg hak]
      rw [List.lookup_cons, hka]
      exact ih hs

lemma lookup_append_none (k : String) :
    ∀ (d l : Config), List.lookup k d = none →
      List.lookup k (d ++ l) = List.lookup k l := by
  intro d l
  induction d with
  | nil => simp
  | cons hd tl ih =>
    rcases hd with ⟨a, b⟩
    intro h
    rw [List.lookup_cons] at h
    rw [List.cons_append, List.lookup_cons]
    cases hka : k == a with
    | true => rw [hka] at h; simp at h
    | false => rw [hka] at h; exact ih h

lemma dictGet_dictSet (d : Config) (k v : String) :
    dictGet (dictSet d k v) k = Except.ok v := by
  unfold dictGet dictSet
  by_cases h : (List.lookup k d).isSome
  · rw [if_pos h, lookup_set_found k v d h]
  · rw [if_neg h]
    have hnone : List.lookup k d = none := by
      cases hl : List.lookup k d
      · rfl
      · rw [hl] at h; simp at h
    rw [lookup_append_none k d [(k, v)] hnone]
    simp [List.lookup_cons]


/-! ### C10 -/

lemma create_iot_client_user_agent (w : World) (profile ua : String) (c : IotClient)
    (hua : userAgentName w.project = some ua)
    (h : (create_iot_client w profile).1 = Except.ok c) :
    dictGet c.config "additional_user_agent" = Except.ok (ua ++ "/" ++ w.version) := by
  cases hcfg : w.config_from_file profile with
  | error e => simp [create_iot_client, hcfg] at h
  | ok cfg =>
    simp only [create_iot_client, hcfg, hua] at h
    cases hk : dictGet (dictSet cfg "additional_user_agent" (ua ++ "/" ++ w.version)) "key_file" with
    | error e => simp [hk] at h
    | ok key_file =>
      simp only [hk] at h
      cases hpk : w.load_private_key key_file with
      | error e => simp [hpk] at h
      | ok pk =>
        simp only [hpk] at h
        cases htf : dictGet (dictSet cfg "additional_user_agent" (ua ++ "/" ++ w.version)) "security_token_file" with
        | error e => simp [htf] at h
        | ok tf =>
          simp only [htf] at h
          cases hrf : w.read_file tf with
          | error e => simp [hrf] at h
          | ok tok =>
            simp only [hrf] at h
            cases hsf : w.signer_fail tok pk with
            | some e => simp [hsf] at h
            | none =>
              simp only [hsf] at h
              cases hcf : w.client_fail (dictSet cfg "additional_user_agent" (ua ++ "/" ++ w.version)) ⟨tok, pk⟩ with
              | some e => simp [hcf] at h
              | none =>
                simp only [hcf, Except.ok.injEq] at h
                rw [← h]
                exact dictGet_dictSet cfg "additional_user_agent" (ua ++ "/" ++ w.version)

/-- Claim C10: the user-agent derivation is total exactly when the
project name contains the substring "oracle."; under that precondition
the indexing never fails and the client identifier written into the
configuration is the name between "oracle." and "-server" followed by
"/" and the version constant; without it, construction raises the
IndexError of the `[1]` access. -/
theorem user_agent_derivation :
    (∀ p : String, (userAgentName p).isSome = true ↔
        ∃ a b : List Char, p.data = a ++ ("oracle.".data) ++ b) ∧
    (∀ p u : String, userAgentName p = some u →
        ∃ a b : List Char, p.data = a ++ ("oracle.".data) ++ b ∧
          (u.data = b ∨ ∃ v, b = u.data ++ ("-server".data) ++ v)) ∧
    (∀ (w : World) (profile : String) (cfg : Config),
        w.config_from_file profile = Except.ok cfg →
        userAgentName w.project = none →
        (create_iot_client w profile).1 =
          Except.error ⟨ExnKind.otherError, "list index out of range"⟩) ∧
    (∀ (w : World) (profile ua : String) (c : IotClient),
        userAgentName w.project = some ua →
        (create_iot_client w profile).1 = Except.ok c →
        dictGet c.config "additional_user_agent" = Except.ok (ua ++ "/" ++ w.version)) := by
  refine ⟨userAgentName_isSome_iff, userAgentName_spec, ?_, ?_⟩
  · intro w profile cfg hcfg hua
    simp [create_iot_client, hcfg, hua]
  · intro w profile ua c hua h
    exact create_iot_client_user_agent w profile ua c hua h

/-- Witness for C10 at concrete project names. -/
theorem user_agent_derivation_witness :
    (∃ a b : List Char,
        ("oracle.oci-iot-mcp-server" : String).data = a ++ ("oracle.".data) ++ b ∧
        (("oci-iot-mcp" : String).data = b ∨
          ∃ v, b = ("oci-iot-mcp" : String).data ++ ("-server".data) ++ v)) ∧
    (create_iot_client wNoOracle "P").1 =
      Except.error ⟨ExnKind.otherError, "list index out of range"⟩ ∧
    dictGet createdClient.config "additional_user_agent" =
      Except.ok ("oci-iot-mcp" ++ "/" ++ "1.0.0") :=
  ⟨user_agent_derivation.2.1 "oracle.oci-iot-mcp-server" "oci-iot-mcp" (by decide),
   user_agent_derivation.2.2.1 wNoOracle "P" okConfig (by decide) (by decide),
   user_agent_derivation.2.2.2 wOk "P" "oci-iot-mcp" createdClient (by decide) (by decide)⟩


/-! ### Effect accounting for the factory -/

lemma factoryErrorLog_isLogError (e : Exn) : ∃ m, factoryErrorLog e = Effect.logError m := by
  rcases e with ⟨k, m⟩
  cases k <;> exact ⟨_, rfl⟩

lemma isRemoteCall_factoryErrorLog (e : Exn) : isRemoteCall (factoryErrorLog e) = false := by
  obtain ⟨m, hm⟩ := factoryErrorLog_isLogError e
  rw [hm]
  rfl

lemma isLogEntry_factoryErrorLog (e : Exn) : isLogEntry (factoryErrorLog e) = true := by
  obtain ⟨m, hm⟩ := factoryErrorLog_isLogError e
  rw [hm]
  rfl

lemma isErrorLogEntry_factoryErrorLog (e : Exn) : isErrorLogEntry (factoryErrorLog e) = true := by
  obtain ⟨m, hm⟩ := factoryErrorLog_isLogError e
  rw [hm]
  rfl

lemma envRead_ne_factoryErrorLog (n : String) (e : Exn) :
    Effect.envRead n ≠ factoryErrorLog e := by
  obtain ⟨m, hm⟩ := factoryErrorLog_isLogError e
  rw [hm]
  simp

lemma remoteCount_append (l1 l2 : List Effect) :
    remoteCount (l1 ++ l2) = remoteCount l1 + remoteCount l2 := by
  simp [remoteCount, List.countP_append]

lemma logCount_append (l1 l2 : List Effect) :
    logCount (l1 ++ l2) = logCount l1 + logCount l2 := by
  simp [logCount, List.countP_append]

lemma errorLogCount_append (l1 l2 : List Effect) :
    errorLogCount (l1 ++ l2) = errorLogCount l1 + errorLogCount l2 := by
  simp [errorLogCount, List.countP_append]

lemma remoteCount_envEffect (p : Option String) : remoteCount (envEffect p) = 0 := by
  cases p <;> rfl

lemma logCount_envEffect (p : Option String) : logCount (envEffect p) = 0 := by
  cases p <;> rfl

lemma errorLogCount_envEffect (p : Option String) : errorLogCount (envEffect p) = 0 := by
  cases p <;> rfl

@[simp] lemma isRemoteCall_envRead (n : String) : isRemoteCall (Effect.envRead n) = false := rfl

@[simp] lemma isRemoteCall_configLoad (p : String) : isRemoteCall (Effect.configLoad p) = false := rfl

@[simp] lemma isRemoteCall_keyLoad (p : String) : isRemoteCall (Effect.keyLoad p) = false := rfl

@[simp] lemma isRemoteCall_fileRead (p : String) : isRemoteCall (Effect.fileRead p) = false := rfl

@[simp] lemma isRemoteCall_logInfo (m : String) : isRemoteCall (Effect.logInfo m) = false := rfl

@[simp] lemma isRemoteCall_logError (m : String) : isRemoteCall (Effect.logError m) = false := rfl

@[simp] lemma isRemoteCall_remoteCall (op arg : String) :
    isRemoteCall (Effect.remoteCall op arg) = true := rfl

@[simp] lemma isLogEntry_envRead (n : String) : isLogEntry (Effect.envRead n) = false := rfl

@[simp] lemma isLogEntry_configLoad (p : String) : isLogEntry (Effect.configLoad p) = false := rfl

@[simp] lemma isLogEntry_keyLoad (p : String) : isLogEntry (Effect.keyLoad p) = false := rfl

@[simp] lemma isLogEntry_fileRead (p : String) : isLogEntry (Effect.fileRead p) = false := rfl

@[simp] lemma isLogEntry_logInfo (m : String) : isLogEntry (Effect.logInfo m) = true := rfl

@[simp] lemma isLogEntry_logError (m : String) : isLogEntry (Effect.logError m) = true := rfl

@[simp] lemma isLogEntry_remoteCall (op arg : String) :
    isLogEntry (Effect.remoteCall op arg) = false := rfl

@[simp] lemma isErrorLogEntry_envRead (n : String) :
    isErrorLogEntry (Effect.envRead n) = false := rfl

@[simp] lemma isErrorLogEntry_configLoad (p : String) :
    isErrorLogEntry (Effect.configLoad p) = false := rfl

@[simp] lemma isErrorLogEntry_keyLoad (p : String) :
    isErrorLogEntry (Effect.keyLoad p) = false := rfl

@[simp] lemma isErrorLogEntry_fileRead (p : String) :
    isErrorLogEntry (Effect.fileRead p) = false := rfl

@[simp] lemma isErrorLogEntry_logInfo (m : String) :
    isErrorLogEntry (Effect.logInfo m) = false := rfl

@[simp] lemma isErrorLogEntry_logError (m : String) :
    isErrorLogEntry (Effect.logError m) = true := rfl

@[simp] lemma isErrorLogEntry_remoteCall (op arg : String) :
    isErrorLogEntry (Effect.remoteCall op arg) = false := rfl

lemma create_iot_client_remoteCount (w : World) (profile : String) :
    remoteCount (create_iot_client w profile).2 = 0 := by
  simp only [create_iot_client]
  repeat' split
  all_goals
    simp [remoteCount, List.countP_append, List.countP_cons, isRemoteCall_factoryErrorLog]

lemma create_iot_client_logCount (w : World) (profile : String) :
    logCount (create_iot_client w profile).2 = 2 := by
  simp only [create_iot_client]
  repeat' split
  all_goals
    simp [logCount, List.countP_append, List.countP_cons, isLogEntry_factoryErrorLog]

lemma create_iot_client_errorLogCount (w : World) (profile : String) :
    errorLogCount (create_iot_client w profile).2 =
      match (create_iot_client w profile).1 with
      | Except.ok _ => 0
      | Except.error _ => 1 := by
  simp only [create_iot_client]
  repeat' split
  all_goals
    simp_all [errorLogCount, List.countP_append, List.countP_cons, isErrorLogEntry_factoryErrorLog]

lemma create_iot_client_configLoad (w : World) (profile : String) :
    Effect.configLoad profile ∈ (create_iot_client w profile).2 := by
  simp only [create_iot_client]
  repeat' split
  all_goals simp

lemma create_iot_client_no_envRead (w : World) (profile n : String) :
    Effect.envRead n ∉ (create_iot_client w profile).2 := by
  simp only [create_iot_client]
  repeat' split
  all_goals simp [envRead_ne_factoryErrorLog]

lemma get_iot_client_remoteCount (w : World) (p : Option String) (st : ServerState) :
    remoteCount (get_iot_client w p st).2.2 = 0 := by
  cases hst : st.iot_client with
  | some c =>
    rw [get_iot_client_cached w p st c hst]
    exact remoteCount_envEffect p
  | none =>
    rcases hc : create_iot_client w (resolveProfile w p) with ⟨r, effs⟩
    have hcr : remoteCount effs = 0 := by
      have h0 := create_iot_client_remoteCount w (resolveProfile w p)
      rwa [hc] at h0
    cases r with
    | ok a =>
      rw [get_iot_client_uncached_ok w p st a effs hst hc]
      simp [remoteCount_append, remoteCount_envEffect, hcr]
    | error e =>
      rw [get_iot_client_uncached_error w p st e effs hst hc]
      simp [remoteCount_append, remoteCount_envEffect, hcr]

lemma get_iot_client_logCount_uncached (w : World) (p : Option String) (st : ServerState)
    (h : st.iot_client = none) :
    logCount (get_iot_client w p st).2.2 = 2 := by
  rcases hc : create_iot_client w (resolveProfile w p) with ⟨r, effs⟩
  have hcl : logCount effs = 2 := by
    have h0 := create_iot_client_logCount w (resolveProfile w p)
    rwa [hc] at h0
  cases r with
  | ok a =>
    rw [get_iot_client_uncached_ok w p st a effs h hc]
    simp [logCount_append, logCount_envEffect, hcl]
  | error e =>
    rw [get_iot_client_uncached_error w p st e effs h hc]
    simp [logCount_append, logCount_envEffect, hcl]

lemma get_iot_client_errorLogCount_error (w : World) (p : Option String) (st : ServerState)
    (e : Exn) (h : st.iot_client = none)
    (he : (get_iot_client w p st).1 = Except.error e) :
    errorLogCount (get_iot_client w p st).2.2 = 1 := by
  rcases hc : create_iot_client w (resolveProfile w p) with ⟨r, effs⟩
  have hce := create_iot_client_errorLogCount w (resolveProfile w p)
  rw [hc] at hce
  cases r with
  | ok a =>
    rw [get_iot_client_uncached_ok w p st a effs h hc] at he
    exact absurd he (by simp)
  | error e2 =>
    rw [get_iot_client_uncached_error w p st e2 effs h hc]
    simp only at hce
    simp [errorLogCount_append, errorLogCount_envEffect, hce]

lemma get_iot_client_errorLogCount_ok (w : World) (p : Option String) (st : ServerState)
    (c : IotClient) (he : (get_iot_client w p st).1 = Except.ok c) :
    errorLogCount (get_iot_client w p st).2.2 = 0 := by
  cases hst : st.iot_client with
  | some c2 =>
    rw [get_iot_client_cached w p st c2 hst]
    exact errorLogCount_envEffect p
  | none =>
    rcases hc : create_iot_client w (resolveProfile w p) with ⟨r, effs⟩
    have hce := create_iot_client_errorLogCount w (resolveProfile w p)
    rw [hc] at hce
    cases r with
    | ok a =>
      rw [get_iot_client_uncached_ok w p st a effs hst hc]
      simp only at hce
      simp [errorLogCount_append, errorLogCount_envEffect, hce]
    | error e2 =>
      rw [get_iot_client_uncached_error w p st e2 effs hst hc] at he
      exact absurd he (by simp)


/-! ### C7 and C8 -/

lemma get_iot_client_configLoad (w : World) (p : Option String) (st : ServerState)
    (h : st.iot_client = none) :
    Effect.configLoad (resolveProfile w p) ∈ (get_iot_client w p st).2.2 := by
  rcases hc : create_iot_client w (resolveProfile w p) with ⟨r, effs⟩
  have hm : Effect.configLoad (resolveProfile w p) ∈ effs := by
    have h0 := create_iot_client_configLoad w (resolveProfile w p)
    rwa [hc] at h0
  cases r with
  | ok a =>
    rw [get_iot_client_uncached_ok w p st a effs h hc]
    simp [hm]
  | error e =>
    rw [get_iot_client_uncached_error w p st e effs h hc]
    simp [hm]

lemma get_iot_client_no_envRead_some (w : World) (q : String) (st : ServerState) (n : String) :
    Effect.envRead n ∉ (get_iot_client w (some q) st).2.2 := by
  cases hst : st.iot_client with
  | some c =>
    rw [get_iot_client_cached w (some q) st c hst]
    simp [envEffect]
  | none =>
    rcases hc : create_iot_client w (resolveProfile w (some q)) with ⟨r, effs⟩
    have hm := create_iot_client_no_envRead w (resolveProfile w (some q)) n
    rw [hc] at hm
    cases r with
    | ok a =>
      rw [get_iot_client_uncached_ok w (some q) st a effs hst hc]
      simp [envEffect, hm]
    | error e =>
      rw [get_iot_client_uncached_error w (some q) st e effs hst hc]
      simp [envEffect, hm]

/-- Counterexample to claim C7: with the profile-selection environment
variable set to "ENVPROF", the first call that omits the profile
argument (so uses the keyword default) reads no environment variable and
loads the configuration for the hardcoded "INTWIM-IAD-IOT", not for
"ENVPROF"; so an omitted argument does not consult the environment. -/
theorem profile_resolution_cex :
    wEnvSet.env "OCI_CONFIG_PROFILE" = some "ENVPROF" ∧
    st0.iot_client = none ∧
    Effect.envRead "OCI_CONFIG_PROFILE" ∉ (get_iot_client wEnvSet defaultProfileArg st0).2.2 ∧
    Effect.configLoad "INTWIM-IAD-IOT" ∈ (get_iot_client wEnvSet defaultProfileArg st0).2.2 ∧
    Effect.configLoad "ENVPROF" ∉ (get_iot_client wEnvSet defaultProfileArg st0).2.2 := by
  decide

/-- Claim C7 as amended: on a first call, an explicit non-None argument
is used as given; an explicit None consults the environment variable and
falls back to "DEFAULT" when it is unset; but an omitted argument means
the keyword default "INTWIM-IAD-IOT", for which the environment is never
read. -/
theorem profile_resolution_amended :
    (∀ (w : World) (st : ServerState) (p : String), st.iot_client = none →
        Effect.configLoad p ∈ (get_iot_client w (some p) st).2.2) ∧
    (∀ (w : World) (st : ServerState) (v : String), st.iot_client = none →
        w.env "OCI_CONFIG_PROFILE" = some v →
        Effect.configLoad v ∈ (get_iot_client w none st).2.2 ∧
        Effect.envRead "OCI_CONFIG_PROFILE" ∈ (get_iot_client w none st).2.2) ∧
    (∀ (w : World) (st : ServerState), st.iot_client = none →
        w.env "OCI_CONFIG_PROFILE" = none →
        Effect.configLoad "DEFAULT" ∈ (get_iot_client w none st).2.2) ∧
    defaultProfileArg = some "INTWIM-IAD-IOT" ∧
    (∀ (w : World) (st : ServerState), st.iot_client = none →
        Effect.configLoad "INTWIM-IAD-IOT" ∈ (get_iot_client w defaultProfileArg st).2.2 ∧
        Effect.envRead "OCI_CONFIG_PROFILE" ∉ (get_iot_client w defaultProfileArg st).2.2) := by
  refine ⟨?_, ?_, ?_, rfl, ?_⟩
  · intro w st p h
    exact get_iot_client_configLoad w (some p) st h
  · intro w st v h henv
    constructor
    · have h0 := get_iot_client_configLoad w none st h
      simp only [resolveProfile, henv, Option.getD_some] at h0
      exact h0
    · cases hst : st.iot_client with
      | some c => rw [hst] at h; cases h
      | none =>
        rcases hc : create_iot_client w (resolveProfile w none) with ⟨r, effs⟩
        cases r with
        | ok a =>
          rw [get_iot_client_uncached_ok w none st a effs h hc]
          simp [envEffect]
        | error e =>
          rw [get_iot_client_uncached_error w none st e effs h hc]
          simp [envEffect]
  · intro w st h henv
    have h0 := get_iot_client_configLoad w none st h
    simp only [resolveProfile, henv, Option.getD_none] at h0
    exact h0
  · intro w st h
    constructor
    · exact get_iot_client_configLoad w defaultProfileArg st h
    · exact get_iot_client_no_envRead_some w "INTWIM-IAD-IOT" st "OCI_CONFIG_PROFILE"

/-- Witness for the amended C7 at concrete inputs. -/
theorem profile_resolution_amended_witness :
    Effect.configLoad "P" ∈ (get_iot_client wOk (some "P") st0).2.2 ∧
    (Effect.configLoad "ENVPROF" ∈ (get_iot_client wEnvSet none st0).2.2 ∧
      Effect.envRead "OCI_CONFIG_PROFILE" ∈ (get_iot_client wEnvSet none st0).2.2) ∧
    Effect.configLoad "DEFAULT" ∈ (get_iot_client wOk none st0).2.2 ∧
    (Effect.configLoad "INTWIM-IAD-IOT" ∈ (get_iot_client wOk defaultProfileArg st0).2.2 ∧
      Effect.envRead "OCI_CONFIG_PROFILE" ∉ (get_iot_client wOk defaultProfileArg st0).2.2) :=
  ⟨profile_resolution_amended.1 wOk st0 "P" rfl,
   profile_resolution_amended.2.1 wEnvSet st0 "ENVPROF" rfl rfl,
   profile_resolution_amended.2.2.1 wOk st0 rfl rfl,
   profile_resolution_amended.2.2.2.2 wOk st0 rfl⟩

/-- Counterexample to claim C8: with the cache already initialized, a
call with `profile_name = None` is not effect-free — it still reads the
profile-selection environment variable. -/
theorem cached_call_cex :
    stCached.iot_client = some cachedClient ∧
    (get_iot_client wEnvSet none stCached).2.2 = [Effect.envRead "OCI_CONFIG_PROFILE"] ∧
    (get_iot_client wEnvSet none stCached).2.2 ≠ [] := by
  decide

/-- Claim C8 as amended: once the cache is initialized, `get_iot_client`
returns the cached handle with the state unchanged and performs no
configuration, key or token file reads, no remote calls and no log
entries; its only effect is the read of the OCI_CONFIG_PROFILE
environment variable, which happens exactly when `profile_name` is None. -/
theorem cached_call_effect_free :
    ∀ (w : World) (st : ServerState) (c : IotClient) (p : Option String),
      st.iot_client = some c →
      get_iot_client w p st = (Except.ok c, st, envEffect p) ∧
      (∀ q : String, (get_iot_client w (some q) st).2.2 = []) ∧
      (get_iot_client w none st).2.2 = [Effect.envRead "OCI_CONFIG_PROFILE"] := by
  intro w st c p h
  refine ⟨get_iot_client_cached w p st c h, ?_, ?_⟩
  · intro q
    rw [get_iot_client_cached w (some q) st c h]
    rfl
  · rw [get_iot_client_cached w none st c h]
    rfl

/-- Witness for the amended C8 at concrete inputs. -/
theorem cached_call_effect_free_witness :
    get_iot_client wOk defaultProfileArg stCached =
      (Except.ok cachedClient, stCached, []) ∧
    (get_iot_client wOk none stCached).2.2 = [Effect.envRead "OCI_CONFIG_PROFILE"] :=
  ⟨(cached_call_effect_free wOk stCached cachedClient defaultProfileArg rfl).1,
   (cached_call_effect_free wOk stCached cachedClient defaultProfileArg rfl).2.2⟩


/-! ### The common tool shape -/

/-- The try/log/re-raise shape every dispatch tool instantiates: acquire
the client, perform the one remote operation `op`, return its `data`; on
failure append the tool's error log entry built by `logMsg` from the
identifier and the exception message. Each tool definition above is
definitionally equal to an instance of this shape. -/
def toolRun (op : String) (logMsg : String → String → String)
    (w : World) (st : ServerState) (arg : String) :
    Except Exn Datum × ServerState × List Effect :=
  match get_iot_client w defaultProfileArg st with
  | (Except.error e, st1, effs) =>
    (Except.error e, st1, effs ++ [Effect.logError (logMsg arg e.msg)])
  | (Except.ok c, st1, effs) =>
    match w.remote c op arg with
    | Except.error e =>
      (Except.error e, st1,
       effs ++ [Effect.remoteCall op arg, Effect.logError (logMsg arg e.msg)])
    | Except.ok resp =>
      (Except.ok resp.data, st1, effs ++ [Effect.remoteCall op arg])

lemma get_digital_twin_adapter_eq_toolRun :
    get_digital_twin_adapter = toolRun "get_digital_twin_adapter" (fun a em => "Error getting digital twin adapter " ++ a ++ ": " ++ em) := rfl

lemma get_digital_twin_instance_eq_toolRun :
    get_digital_twin_instance = toolRun "get_digital_twin_instance" (fun a em => "Error getting digital twin instance " ++ a ++ ": " ++ em) := rfl

lemma get_digital_twin_instance_content_eq_toolRun :
    get_digital_twin_instance_content = toolRun "get_digital_twin_instance_content" (fun a em => "Error getting digital twin instance content " ++ a ++ ": " ++ em) := rfl

lemma get_digital_twin_model_eq_toolRun :
    get_digital_twin_model = toolRun "get_digital_twin_model" (fun a em => "Error getting digital twin model " ++ a ++ ": " ++ em) := rfl

lemma get_digital_twin_model_spec_eq_toolRun :
    get_digital_twin_model_spec = toolRun "get_digital_twin_model_spec" (fun a em => "Error getting digital twin model spec " ++ a ++ ": " ++ em) := rfl

lemma get_digital_twin_relationship_eq_toolRun :
    get_digital_twin_relationship = toolRun "get_digital_twin_relationship" (fun a em => "Error getting digital twin relationship " ++ a ++ ": " ++ em) := rfl

lemma get_iot_domain_eq_toolRun :
    get_iot_domain = toolRun "get_iot_domain" (fun a em => "Error getting IoT domain " ++ a ++ ": " ++ em) := rfl

lemma get_iot_domain_group_eq_toolRun :
    get_iot_domain_group = toolRun "get_iot_domain_group" (fun a em => "Error getting IoT domain group " ++ a ++ ": " ++ em) := rfl

lemma get_work_request_eq_toolRun :
    get_work_request = toolRun "get_work_request" (fun a em => "Error getting work request " ++ a ++ ": " ++ em) := rfl

lemma list_digital_twin_adapters_eq_toolRun :
    list_digital_twin_adapters = toolRun "list_digital_twin_adapters" (fun a em => "Error listing digital twin adapters for domain " ++ a ++ ": " ++ em) := rfl

lemma list_digital_twin_models_eq_toolRun :
    list_digital_twin_models = toolRun "list_digital_twin_models" (fun a em => "Error listing digital twin models for domain " ++ a ++ ": " ++ em) := rfl

lemma list_digital_twin_instances_eq_toolRun :
    list_digital_twin_instances = toolRun "list_digital_twin_instances" (fun a em => "Error listing digital twin instances for domain " ++ a ++ ": " ++ em) := rfl

lemma list_digital_twin_relationships_eq_toolRun :
    list_digital_twin_relationships = toolRun "list_digital_twin_relationships" (fun a em => "Error listing digital twin relationships for domain " ++ a ++ ": " ++ em) := rfl

lemma list_iot_domain_groups_eq_toolRun :
    list_iot_domain_groups = toolRun "list_iot_domain_groups" (fun a em => "Error listing IoT domain groups for compartment " ++ a ++ ": " ++ em) := rfl

lemma list_iot_domains_eq_toolRun :
    list_iot_domains = toolRun "list_iot_domains" (fun a em => "Error listing IoT domains for compartment " ++ a ++ ": " ++ em) := rfl

lemma list_work_request_errors_eq_toolRun :
    list_work_request_errors = toolRun "list_work_request_errors" (fun a em => "Error listing work request errors for " ++ a ++ ": " ++ em) := rfl

lemma list_work_request_logs_eq_toolRun :
    list_work_request_logs = toolRun "list_work_request_logs" (fun a em => "Error listing work request logs for " ++ a ++ ": " ++ em) := rfl

lemma list_work_requests_eq_toolRun :
    list_work_requests = toolRun "list_work_requests" (fun a em => "Error listing work requests for compartment " ++ a ++ ": " ++ em) := rfl


lemma toolRun_eq_acq_error (op : String) (logMsg : String → String → String)
    (w : World) (st st1 : ServerState) (arg : String) (e : Exn) (effs : List Effect)
    (hg : get_iot_client w defaultProfileArg st = (Except.error e, st1, effs)) :
    toolRun op logMsg w st arg =
      (Except.error e, st1, effs ++ [Effect.logError (logMsg arg e.msg)]) := by
  simp [toolRun, hg]

lemma toolRun_eq_remote_ok (op : String) (logMsg : String → String → String)
    (w : World) (st st1 : ServerState) (arg : String) (c : IotClient)
    (effs : List Effect) (resp : RemoteResponse)
    (hg : get_iot_client w defaultProfileArg st = (Except.ok c, st1, effs))
    (hr : w.remote c op arg = Except.ok resp) :
    toolRun op logMsg w st arg =
      (Except.ok resp.data, st1, effs ++ [Effect.remoteCall op arg]) := by
  simp [toolRun, hg, hr]

lemma toolRun_eq_remote_error (op : String) (logMsg : String → String → String)
    (w : World) (st st1 : ServerState) (arg : String) (c : IotClient)
    (effs : List Effect) (e : Exn)
    (hg : get_iot_client w defaultProfileArg st = (Except.ok c, st1, effs))
    (hr : w.remote c op arg = Except.error e) :
    toolRun op logMsg w st arg =
      (Except.error e, st1,
       effs ++ [Effect.remoteCall op arg, Effect.logError (logMsg arg e.msg)]) := by
  simp [toolRun, hg, hr]


/-! ### C3 -/

/-- A world whose remote service answers every call with an ordered
three-element collection starting with the request argument. -/
def wColl : World :=
  { wOk with remote := fun _ _ arg => Except.ok ⟨200, Datum.coll [arg, "i2", "i3"]⟩ }

/-- Claim C3: every dispatch tool, whenever the remote SDK call
succeeds, performs exactly one remote operation and returns that
response's data payload unchanged — the very object (or ordered
collection) the remote call produced, with no transformation. -/
theorem tools_pass_through :
    (∀ (w : World) (st : ServerState) (arg : String) (c : IotClient) (resp : RemoteResponse),
        (get_iot_client w defaultProfileArg st).1 = Except.ok c →
        w.remote c "get_digital_twin_adapter" arg = Except.ok resp →
        (get_digital_twin_adapter w st arg).1 = Except.ok resp.data ∧
        remoteCount (get_digital_twin_adapter w st arg).2.2 = 1 ∧
        Effect.remoteCall "get_digital_twin_adapter" arg ∈ (get_digital_twin_adapter w st arg).2.2) ∧
    (∀ (w : World) (st : ServerState) (arg : String) (c : IotClient) (resp : RemoteResponse),
        (get_iot_client w defaultProfileArg st).1 = Except.ok c →
        w.remote c "get_digital_twin_instance" arg = Except.ok resp →
        (get_digital_twin_instance w st arg).1 = Except.ok resp.data ∧
        remoteCount (get_digital_twin_instance w st arg).2.2 = 1 ∧
        Effect.remoteCall "get_digital_twin_instance" arg ∈ (get_digital_twin_instance w st arg).2.2) ∧
    (∀ (w : World) (st : ServerState) (arg : String) (c : IotClient) (resp : RemoteResponse),
        (get_iot_client w defaultProfileArg st).1 = Except.ok c →
        w.remote c "get_digital_twin_instance_content" arg = Except.ok resp →
        (get_digital_twin_instance_content w st arg).1 = Except.ok resp.data ∧
        remoteCount (get_digital_twin_instance_content w st arg).2.2 = 1 ∧
        Effect.remoteCall "get_digital_twin_instance_content" arg ∈ (get_digital_twin_instance_content w st arg).2.2) ∧
    (∀ (w : World) (st : ServerState) (arg : String) (c : IotClient) (resp : RemoteResponse),
        (get_iot_client w defaultProfileArg st).1 = Except.ok c →
        w.remote c "get_digital_twin_model" arg = Except.ok resp →
        (get_digital_twin_model w st arg).1 = Except.ok resp.data ∧
        remoteCount (get_digital_twin_model w st arg).2.2 = 1 ∧
        Effect.remoteCall "get_digital_twin_model" arg ∈ (get_digital_twin_model w st arg).2.2) ∧
    (∀ (w : World) (st : ServerState) (arg : String) (c : IotClient) (resp : RemoteResponse),
        (get_iot_client w defaultProfileArg st).1 = Except.ok c →
        w.remote c "get_digital_twin_model_spec" arg = Except.ok resp →
        (get_digital_twin_model_spec w st arg).1 = Except.ok resp.data ∧
        remoteCount (get_digital_twin_model_spec w st arg).2.2 = 1 ∧
        Effect.remoteCall "get_digital_twin_model_spec" arg ∈ (get_digital_twin_model_spec w st arg).2.2) ∧
    (∀ (w : World) (st : ServerState) (arg : String) (c : IotClient) (resp : RemoteResponse),
        (get_iot_client w defaultProfileArg st).1 = Except.ok c →
        w.remote c "get_digital_twin_relationship" arg = Except.ok resp →
        (get_digital_twin_relationship w st arg).1 = Except.ok resp.data ∧
        remoteCount (get_digital_twin_relationship w st arg).2.2 = 1 ∧
        Effect.remoteCall "get_digital_twin_relationship" arg ∈ (get_digital_twin_relationship w st arg).2.2) ∧
    (∀ (w : World) (st : ServerState) (arg : String) (c : IotClient) (resp : RemoteResponse),
        (get_iot_client w defaultProfileArg st).1 = Except.ok c →
        w.remote c "get_iot_domain" arg = Except.ok resp →
        (get_iot_domain w st arg).1 = Except.ok resp.data ∧
        remoteCount (get_iot_domain w st arg).2.2 = 1 ∧
        Effect.remoteCall "get_iot_domain" arg ∈ (get_iot_domain w st arg).2.2) ∧
    (∀ (w : World) (st : ServerState) (arg : String) (c : IotClient) (resp : RemoteResponse),
        (get_iot_client w defaultProfileArg st).1 = Except.ok c →
        w.remote c "get_iot_domain_group" arg = Except.ok resp →
        (get_iot_domain_group w st arg).1 = Except.ok resp.data ∧
        remoteCount (get_iot_domain_group w st arg).2.2 = 1 ∧
        Effect.remoteCall "get_iot_domain_group" arg ∈ (get_iot_domain_group w st arg).2.2) ∧
    (∀ (w : World) (st : ServerState) (arg : String) (c : IotClient) (resp : RemoteResponse),
        (get_iot_client w defaultProfileArg st).1 = Except.ok c →
        w.remote c "get_work_request" arg = Except.ok resp →
        (get_work_request w st arg).1 = Except.ok resp.data ∧
        remoteCount (get_work_request w st arg).2.2 = 1 ∧
        Effect.remoteCall "get_work_request" arg ∈ (get_work_request w st arg).2.2) ∧
    (∀ (w : World) (st : ServerState) (arg : String) (c : IotClient) (resp : RemoteResponse),
        (get_iot_client w defaultProfileArg st).1 = Except.ok c →
        w.remote c "list_digital_twin_adapters" arg = Except.ok resp →
        (list_digital_twin_adapters w st arg).1 = Except.ok resp.data ∧
        remoteCount (list_digital_twin_adapters w st arg).2.2 = 1 ∧
        Effect.remoteCall "list_digital_twin_adapters" arg ∈ (list_digital_twin_adapters w st arg).2.2) ∧
    (∀ (w : World) (st : ServerState) (arg : String) (c : IotClient) (resp : RemoteResponse),
        (get_iot_client w defaultProfileArg st).1 = Except.ok c →
        w.remote c "list_digital_twin_models" arg = Except.ok resp →
        (list_digital_twin_models w st arg).1 = Except.ok resp.data ∧
        remoteCount (list_digital_twin_models w st arg).2.2 = 1 ∧
        Effect.remoteCall "list_digital_twin_models" arg ∈ (list_digital_twin_models w st arg).2.2) ∧
    (∀ (w : World) (st : ServerState) (arg : String) (c : IotClient) (resp : RemoteResponse),
        (get_iot_client w defaultProfileArg st).1 = Except.ok c →
        w.remote c "list_digital_twin_instances" arg = Except.ok resp →
        (list_digital_twin_instances w st arg).1 = Except.ok resp.data ∧
        remoteCount (list_digital_twin_instances w st arg).2.2 = 1 ∧
        Effect.remoteCall "list_digital_twin_instances" arg ∈ (list_digital_twin_instances w st arg).2.2) ∧
    (∀ (w : World) (st : ServerState) (arg : String) (c : IotClient) (resp : RemoteResponse),
        (get_iot_client w defaultProfileArg st).1 = Except.ok c →
        w.remote c "list_digital_twin_relationships" arg = Except.ok resp →
        (list_digital_twin_relationships w st arg).1 = Except.ok resp.data ∧
        remoteCount (list_digital_twin_relationships w st arg).2.2 = 1 ∧
        Effect.remoteCall "list_digital_twin_relationships" arg ∈ (list_digital_twin_relationships w st arg).2.2) ∧
    (∀ (w : World) (st : ServerState) (arg : String) (c : IotClient) (resp : RemoteResponse),
        (get_iot_client w defaultProfileArg st).1 = Except.ok c →
        w.remote c "list_iot_domain_groups" arg = Except.ok resp →
        (list_iot_domain_groups w st arg).1 = Except.ok resp.data ∧
        remoteCount (list_iot_domain_groups w st arg).2.2 = 1 ∧
        Effect.remoteCall "list_iot_domain_groups" arg ∈ (list_iot_domain_groups w st arg).2.2) ∧
    (∀ (w : World) (st : ServerState) (arg : String) (c : IotClient) (resp : RemoteResponse),
        (get_iot_client w defaultProfileArg st).1 = Except.ok c →
        w.remote c "list_iot_domains" arg = Except.ok resp →
        (list_iot_domains w st arg).1 = Except.ok resp.data ∧
        remoteCount (list_iot_domains w st arg).2.2 = 1 ∧
        Effect.remoteCall "list_iot_domains" arg ∈ (list_iot_domains w st arg).2.2) ∧
    (∀ (w : World) (st : ServerState) (arg : String) (c : IotClient) (resp : RemoteResponse),
        (get_iot_client w defaultProfileArg st).1 = Except.ok c →
        w.remote c "list_work_request_errors" arg = Except.ok resp →
        (list_work_request_errors w st arg).1 = Except.ok resp.data ∧
        remoteCount (list_work_request_errors w st arg).2.2 = 1 ∧
        Effect.remoteCall "list_work_request_errors" arg ∈ (list_work_request_errors w st arg).2.2) ∧
    (∀ (w : World) (st : ServerState) (arg : String) (c : IotClient) (resp : RemoteResponse),
        (get_iot_client w defaultProfileArg st).1 = Except.ok c →
        w.remote c "list_work_request_logs" arg = Except.ok resp →
        (list_work_request_logs w st arg).1 = Except.ok resp.data ∧
        remoteCount (list_work_request_logs w st arg).2.2 = 1 ∧
        Effect.remoteCall "list_work_request_logs" arg ∈ (list_work_request_logs w st arg).2.2) ∧
    (∀ (w : World) (st : ServerState) (arg : String) (c : IotClient) (resp : RemoteResponse),
        (get_iot_client w defaultProfileArg st).1 = Except.ok c →
        w.remote c "list_work_requests" arg = Except.ok resp →
        (list_work_requests w st arg).1 = Except.ok resp.data ∧
        remoteCount (list_work_requests w st arg).2.2 = 1 ∧
        Effect.remoteCall "list_work_requests" arg ∈ (list_work_requests w st arg).2.2) := by
  refine ⟨?_, ?_, ?_, ?_, ?_, ?_, ?_, ?_, ?_, ?_, ?_, ?_, ?_, ?_, ?_, ?_, ?_, ?_⟩
  all_goals
    intro w st arg c resp h1 h2
    rcases hg : get_iot_client w defaultProfileArg st with ⟨r, st1, effs⟩
    have hr1 : r = Except.ok c := by rw [hg] at h1; exact h1
    subst hr1
    have h0 : remoteCount effs = 0 := by
      have hh := get_iot_client_remoteCount w defaultProfileArg st
      rw [hg] at hh
      exact hh
    simp only [get_digital_twin_adapter_eq_toolRun, get_digital_twin_instance_eq_toolRun, get_digital_twin_instance_content_eq_toolRun, get_digital_twin_model_eq_toolRun, get_digital_twin_model_spec_eq_toolRun, get_digital_twin_relationship_eq_toolRun, get_iot_domain_eq_toolRun, get_iot_domain_group_eq_toolRun, get_work_request_eq_toolRun, list_digital_twin_adapters_eq_toolRun, list_digital_twin_models_eq_toolRun, list_digital_twin_instances_eq_toolRun, list_digital_twin_relationships_eq_toolRun, list_iot_domain_groups_eq_toolRun, list_iot_domains_eq_toolRun, list_work_request_errors_eq_toolRun, list_work_request_logs_eq_toolRun, list_work_requests_eq_toolRun]
    rw [toolRun_eq_remote_ok _ _ w st st1 arg c effs resp hg h2]
    refine ⟨rfl, ?_, by simp⟩
    show remoteCount (effs ++ [Effect.remoteCall _ arg]) = 1
    rw [remoteCount_append, h0]
    rfl

/-- Witness for C3: a get tool passes the remote object through, a list
tool passes the ordered collection through, each with exactly one remote
call. -/
theorem tools_pass_through_witness :
    ((get_iot_domain wOk stCached "d-1").1 = Except.ok (Datum.obj "get_iot_domain:d-1") ∧
      remoteCount (get_iot_domain wOk stCached "d-1").2.2 = 1 ∧
      Effect.remoteCall "get_iot_domain" "d-1" ∈ (get_iot_domain wOk stCached "d-1").2.2) ∧
    ((list_iot_domains wColl stCached "c-1").1 = Except.ok (Datum.coll ["c-1", "i2", "i3"]) ∧
      remoteCount (list_iot_domains wColl stCached "c-1").2.2 = 1 ∧
      Effect.remoteCall "list_iot_domains" "c-1" ∈ (list_iot_domains wColl stCached "c-1").2.2) :=
  ⟨tools_pass_through.2.2.2.2.2.2.1 wOk stCached "d-1" cachedClient
      ⟨200, Datum.obj "get_iot_domain:d-1"⟩ (by decide) (by decide),
   tools_pass_through.2.2.2.2.2.2.2.2.2.2.2.2.2.2.1 wColl stCached "c-1" cachedClient
      ⟨200, Datum.coll ["c-1", "i2", "i3"]⟩ (by decide) (by decide)⟩


/-! ### C4 -/

/-- Claim C4: every dispatch tool re-raises any exception from client
acquisition or from the remote call unmodified — the same exception
value, with no wrapping — and performs no retry (at most one remote
call) and returns no fallback result. -/
theorem tools_reraise_unmodified :
    ((∀ (w : World) (st : ServerState) (arg : String) (e : Exn),
        (get_iot_client w defaultProfileArg st).1 = Except.error e →
        (get_digital_twin_adapter w st arg).1 = Except.error e ∧
        remoteCount (get_digital_twin_adapter w st arg).2.2 = 0) ∧
      (∀ (w : World) (st : ServerState) (arg : String) (c : IotClient) (e : Exn),
        (get_iot_client w defaultProfileArg st).1 = Except.ok c →
        w.remote c "get_digital_twin_adapter" arg = Except.error e →
        (get_digital_twin_adapter w st arg).1 = Except.error e ∧
        remoteCount (get_digital_twin_adapter w st arg).2.2 = 1)) ∧
    ((∀ (w : World) (st : ServerState) (arg : String) (e : Exn),
        (get_iot_client w defaultProfileArg st).1 = Except.error e →
        (get_digital_twin_instance w st arg).1 = Except.error e ∧
        remoteCount (get_digital_twin_instance w st arg).2.2 = 0) ∧
      (∀ (w : World) (st : ServerState) (arg : String) (c : IotClient) (e : Exn),
        (get_iot_client w defaultProfileArg st).1 = Except.ok c →
        w.remote c "get_digital_twin_instance" arg = Except.error e →
        (get_digital_twin_instance w st arg).1 = Except.error e ∧
        remoteCount (get_digital_twin_instance w st arg).2.2 = 1)) ∧
    ((∀ (w : World) (st : ServerState) (arg : String) (e : Exn),
        (get_iot_client w defaultProfileArg st).1 = Except.error e →
        (get_digital_twin_instance_content w st arg).1 = Except.error e ∧
        remoteCount (get_digital_twin_instance_content w st arg).2.2 = 0) ∧
      (∀ (w : World) (st : ServerState) (arg : String) (c : IotClient) (e : Exn),
        (get_iot_client w defaultProfileArg st).1 = Except.ok c →
        w.remote c "get_digital_twin_instance_content" arg = Except.error e →
        (get_digital_twin_instance_content w st arg).1 = Except.error e ∧
        remoteCount (get_digital_twin_instance_content w st arg).2.2 = 1)) ∧
    ((∀ (w : World) (st : ServerState) (arg : String) (e : Exn),
        (get_iot_client w defaultProfileArg st).1 = Except.error e →
        (get_digital_twin_model w st arg).1 = Except.error e ∧
        remoteCount (get_digital_twin_model w st arg).2.2 = 0) ∧
      (∀ (w : World) (st : ServerState) (arg : String) (c : IotClient) (e : Exn),
        (get_iot_client w defaultProfileArg st).1 = Except.ok c →
        w.remote c "get_digital_twin_model" arg = Except.error e →
        (get_digital_twin_model w st arg).1 = Except.error e ∧
        remoteCount (get_digital_twin_model w st arg).2.2 = 1)) ∧
    ((∀ (w : World) (st : ServerState) (arg : String) (e : Exn),
        (get_iot_client w defaultProfileArg st).1 = Except.error e →
        (get_digital_twin_model_spec w st arg).1 = Except.error e ∧
        remoteCount (get_digital_twin_model_spec w st arg).2.2 = 0) ∧
      (∀ (w : World) (st : ServerState) (arg : String) (c : IotClient) (e : Exn),
        (get_iot_client w defaultProfileArg st).1 = Except.ok c →
        w.remote c "get_digital_twin_model_spec" arg = Except.error e →
        (get_digital_twin_model_spec w st arg).1 = Except.error e ∧
        remoteCount (get_digital_twin_model_spec w st arg).2.2 = 1)) ∧
    ((∀ (w : World) (st : ServerState) (arg : String) (e : Exn),
        (get_iot_client w defaultProfileArg st).1 = Except.error e →
        (get_digital_twin_relationship w st arg).1 = Except.error e ∧
        remoteCount (get_digital_twin_relationship w st arg).2.2 = 0) ∧
      (∀ (w : World) (st : ServerState) (arg : String) (c : IotClient) (e : Exn),
        (get_iot_client w defaultProfileArg st).1 = Except.ok c →
        w.remote c "get_digital_twin_relationship" arg = Except.error e →
        (get_digital_twin_relationship w st arg).1 = Except.error e ∧
        remoteCount (get_digital_twin_relationship w st arg).2.2 = 1)) ∧
    ((∀ (w : World) (st : ServerState) (arg : String) (e : Exn),
        (get_iot_client w defaultProfileArg st).1 = Except.error e →
        (get_iot_domain w st arg).1 = Except.error e ∧
        remoteCount (get_iot_domain w st arg).2.2 = 0) ∧
      (∀ (w : World) (st : ServerState) (arg : String) (c : IotClient) (e : Exn),
        (get_iot_client w defaultProfileArg st).1 = Except.ok c →
        w.remote c "get_iot_domain" arg = Except.error e →
        (get_iot_domain w st arg).1 = Except.error e ∧
        remoteCount (get_iot_domain w st arg).2.2 = 1)) ∧
    ((∀ (w : World) (st : ServerState) (arg : String) (e : Exn),
        (get_iot_client w defaultProfileArg st).1 = Except.error e →
        (get_iot_domain_group w st arg).1 = Except.error e ∧
        remoteCount (get_iot_domain_group w st arg).2.2 = 0) ∧
      (∀ (w : World) (st : ServerState) (arg : String) (c : IotClient) (e : Exn),
        (get_iot_client w defaultProfileArg st).1 = Except.ok c →
        w.remote c "get_iot_domain_group" arg = Except.error e →
        (get_iot_domain_group w st arg).1 = Except.error e ∧
        remoteCount (get_iot_domain_group w st arg).2.2 = 1)) ∧
    ((∀ (w : World) (st : ServerState) (arg : String) (e : Exn),
        (get_iot_client w defaultProfileArg st).1 = Except.error e →
        (get_work_request w st arg).1 = Except.error e ∧
        remoteCount (get_work_request w st arg).2.2 = 0) ∧
      (∀ (w : World) (st : ServerState) (arg : String) (c : IotClient) (e : Exn),
        (get_iot_client w defaultProfileArg st).1 = Except.ok c →
        w.remote c "get_work_request" arg = Except.error e →
        (get_work_request w st arg).1 = Except.error e ∧
        remoteCount (get_work_request w st arg).2.2 = 1)) ∧
    ((∀ (w : World) (st : ServerState) (arg : String) (e : Exn),
        (get_iot_client w defaultProfileArg st).1 = Except.error e →
        (list_digital_twin_adapters w st arg).1 = Except.error e ∧
        remoteCount (list_digital_twin_adapters w st arg).2.2 = 0) ∧
      (∀ (w : World) (st : ServerState) (arg : String) (c : IotClient) (e : Exn),
        (get_iot_client w defaultProfileArg st).1 = Except.ok c →
        w.remote c "list_digital_twin_adapters" arg = Except.error e →
        (list_digital_twin_adapters w st arg).1 = Except.error e ∧
        remoteCount (list_digital_twin_adapters w st arg).2.2 = 1)) ∧
    ((∀ (w : World) (st : ServerState) (arg : String) (e : Exn),
        (get_iot_client w defaultProfileArg st).1 = Except.error e →
        (list_digital_twin_models w st arg).1 = Except.error e ∧
        remoteCount (list_digital_twin_models w st arg).2.2 = 0) ∧
      (∀ (w : World) (st : ServerState) (arg : String) (c : IotClient) (e : Exn),
        (get_iot_client w defaultProfileArg st).1 = Except.ok c →
        w.remote c "list_digital_twin_models" arg = Except.error e →
        (list_digital_twin_models w st arg).1 = Except.error e ∧
        remoteCount (list_digital_twin_models w st arg).2.2 = 1)) ∧
    ((∀ (w : World) (st : ServerState) (arg : String) (e : Exn),
        (get_iot_client w defaultProfileArg st).1 = Except.error e →
        (list_digital_twin_instances w st arg).1 = Except.error e ∧
        remoteCount (list_digital_twin_instances w st arg).2.2 = 0) ∧
      (∀ (w : World) (st : ServerState) (arg : String) (c : IotClient) (e : Exn),
        (get_iot_client w defaultProfileArg st).1 = Except.ok c →
        w.remote c "list_digital_twin_instances" arg = Except.error e →
        (list_digital_twin_instances w st arg).1 = Except.error e ∧
        remoteCount (list_digital_twin_instances w st arg).2.2 = 1)) ∧
    ((∀ (w : World) (st : ServerState) (arg : String) (e : Exn),
        (get_iot_client w defaultProfileArg st).1 = Except.error e →
        (list_digital_twin_relationships w st arg).1 = Except.error e ∧
        remoteCount (list_digital_twin_relationships w st arg).2.2 = 0) ∧
      (∀ (w : World) (st : ServerState) (arg : String) (c : IotClient) (e : Exn),
        (get_iot_client w defaultProfileArg st).1 = Except.ok c →
        w.remote c "list_digital_twin_relationships" arg = Except.error e →
        (list_digital_twin_relationships w st arg).1 = Except.error e ∧
        remoteCount (list_digital_twin_relationships w st arg).2.2 = 1)) ∧
    ((∀ (w : World) (st : ServerState) (arg : String) (e : Exn),
        (get_iot_client w defaultProfileArg st).1 = Except.error e →
        (list_iot_domain_groups w st arg).1 = Except.error e ∧
        remoteCount (list_iot_domain_groups w st arg).2.2 = 0) ∧
      (∀ (w : World) (st : ServerState) (arg : String) (c : IotClient) (e : Exn),
        (get_iot_client w defaultProfileArg st).1 = Except.ok c →
        w.remote c "list_iot_domain_groups" arg = Except.error e →
        (list_iot_domain_groups w st arg).1 = Except.error e ∧
        remoteCount (list_iot_domain_groups w st arg).2.2 = 1)) ∧
    ((∀ (w : World) (st : ServerState) (arg : String) (e : Exn),
        (get_iot_client w defaultProfileArg st).1 = Except.error e →
        (list_iot_domains w st arg).1 = Except.error e ∧
        remoteCount (list_iot_domains w st arg).2.2 = 0) ∧
      (∀ (w : World) (st : ServerState) (arg : String) (c : IotClient) (e : Exn),
        (get_iot_client w defaultProfileArg st).1 = Except.ok c →
        w.remote c "list_iot_domains" arg = Except.error e →
        (list_iot_domains w st arg).1 = Except.error e ∧
        remoteCount (list_iot_domains w st arg).2.2 = 1)) ∧
    ((∀ (w : World) (st : ServerState) (arg : String) (e : Exn),
        (get_iot_client w defaultProfileArg st).1 = Except.error e →
        (list_work_request_errors w st arg).1 = Except.error e ∧
        remoteCount (list_work_request_errors w st arg).2.2 = 0) ∧
      (∀ (w : World) (st : ServerState) (arg : String) (c : IotClient) (e : Exn),
        (get_iot_client w defaultProfileArg st).1 = Except.ok c →
        w.remote c "list_work_request_errors" arg = Except.error e →
        (list_work_request_errors w st arg).1 = Except.error e ∧
        remoteCount (list_work_request_errors w st arg).2.2 = 1)) ∧
    ((∀ (w : World) (st : ServerState) (arg : String) (e : Exn),
        (get_iot_client w defaultProfileArg st).1 = Except.error e →
        (list_work_request_logs w st arg).1 = Except.error e ∧
        remoteCount (list_work_request_logs w st arg).2.2 = 0) ∧
      (∀ (w : World) (st : ServerState) (arg : String) (c : IotClient) (e : Exn),
        (get_iot_client w defaultProfileArg st).1 = Except.ok c →
        w.remote c "list_work_request_logs" arg = Except.error e →
        (list_work_request_logs w st arg).1 = Except.error e ∧
        remoteCount (list_work_request_logs w st arg).2.2 = 1)) ∧
    ((∀ (w : World) (st : ServerState) (arg : String) (e : Exn),
        (get_iot_client w defaultProfileArg st).1 = Except.error e →
        (list_work_requests w st arg).1 = Except.error e ∧
        remoteCount (list_work_requests w st arg).2.2 = 0) ∧
      (∀ (w : World) (st : ServerState) (arg : String) (c : IotClient) (e : Exn),
        (get_iot_client w defaultProfileArg st).1 = Except.ok c →
        w.remote c "list_work_requests" arg = Except.error e →
        (list_work_requests w st arg).1 = Except.error e ∧
        remoteCount (list_work_requests w st arg).2.2 = 1)) := by
  refine ⟨?_, ?_, ?_, ?_, ?_, ?_, ?_, ?_, ?_, ?_, ?_, ?_, ?_, ?_, ?_, ?_, ?_, ?_⟩
  all_goals refine ⟨?_, ?_⟩
  all_goals
    first
    | (intro w st arg e h1
       rcases hg : get_iot_client w defaultProfileArg st with ⟨r, st1, effs⟩
       have hr1 : r = Except.error e := by rw [hg] at h1; exact h1
       subst hr1
       have h0 : remoteCount effs = 0 := by
         have hh := get_iot_client_remoteCount w defaultProfileArg st
         rw [hg] at hh
         exact hh
       simp only [get_digital_twin_adapter_eq_toolRun, get_digital_twin_instance_eq_toolRun, get_digital_twin_instance_content_eq_toolRun, get_digital_twin_model_eq_toolRun, get_digital_twin_model_spec_eq_toolRun, get_digital_twin_relationship_eq_toolRun, get_iot_domain_eq_toolRun, get_iot_domain_group_eq_toolRun, get_work_request_eq_toolRun, list_digital_twin_adapters_eq_toolRun, list_digital_twin_models_eq_toolRun, list_digital_twin_instances_eq_toolRun, list_digital_twin_relationships_eq_toolRun, list_iot_domain_groups_eq_toolRun, list_iot_domains_eq_toolRun, list_work_request_errors_eq_toolRun, list_work_request_logs_eq_toolRun, list_work_requests_eq_toolRun]
       rw [toolRun_eq_acq_error _ _ w st st1 arg e effs hg]
       refine ⟨rfl, ?_⟩
       show remoteCount (effs ++ [Effect.logError _]) = 0
       rw [remoteCount_append, h0]
       rfl)
    | (intro w st arg c e h1 h2
       rcases hg : get_iot_client w defaultProfileArg st with ⟨r, st1, effs⟩
       have hr1 : r = Except.ok c := by rw [hg] at h1; exact h1
       subst hr1
       have h0 : remoteCount effs = 0 := by
         have hh := get_iot_client_remoteCount w defaultProfileArg st
         rw [hg] at hh
         exact hh
       simp only [get_digital_twin_adapter_eq_toolRun, get_digital_twin_instance_eq_toolRun, get_digital_twin_instance_content_eq_toolRun, get_digital_twin_model_eq_toolRun, get_digital_twin_model_spec_eq_toolRun, get_digital_twin_relationship_eq_toolRun, get_iot_domain_eq_toolRun, get_iot_domain_group_eq_toolRun, get_work_request_eq_toolRun, list_digital_twin_adapters_eq_toolRun, list_digital_twin_models_eq_toolRun, list_digital_twin_instances_eq_toolRun, list_digital_twin_relationships_eq_toolRun, list_iot_domain_groups_eq_toolRun, list_iot_domains_eq_toolRun, list_work_request_errors_eq_toolRun, list_work_request_logs_eq_toolRun, list_work_requests_eq_toolRun]
       rw [toolRun_eq_remote_error _ _ w st st1 arg c effs e hg h2]
       refine ⟨rfl, ?_⟩
       show remoteCount (effs ++ [Effect.remoteCall _ arg, Effect.logError _]) = 1
       rw [remoteCount_append, h0]
       rfl)

/-- Witness for C4: a missing configuration file propagates out of a
tool unchanged with no remote call; a remote service error propagates
out unchanged after the one remote call. -/
theorem tools_reraise_unmodified_witness :
    ((get_digital_twin_adapter wNoConfig st0 "a-1").1 = Except.error exnMissing ∧
      remoteCount (get_digital_twin_adapter wNoConfig st0 "a-1").2.2 = 0) ∧
    ((get_work_request wRemoteFail stCached "wr-1").1 =
        Except.error ⟨ExnKind.serviceError, "404"⟩ ∧
      remoteCount (get_work_request wRemoteFail stCached "wr-1").2.2 = 1) :=
  ⟨tools_reraise_unmodified.1.1 wNoConfig st0 "a-1" exnMissing (by decide),
   tools_reraise_unmodified.2.2.2.2.2.2.2.2.1.2 wRemoteFail stCached "wr-1" cachedClient
      ⟨ExnKind.serviceError, "404"⟩ (by decide) (by decide)⟩


/-! ### C5 -/

/-- Counterexample to claim C5: a tool call whose client acquisition
fails emits three log entries (the factory's info and error entries and
the tool's own error entry), not exactly one; and a successful call that
first constructs the client emits two info entries, not zero. -/
theorem log_policy_cex :
    logCount (get_work_request wNoConfig st0 "wr-1").2.2 = 3 ∧
    logCount (get_work_request wNoConfig st0 "wr-1").2.2 ≠ 1 ∧
    errorLogCount (get_work_request wNoConfig st0 "wr-1").2.2 = 2 ∧
    (get_work_request wOk st0 "wr-1").1 = Except.ok (Datum.obj "get_work_request:wr-1") ∧
    logCount (get_work_request wOk st0 "wr-1").2.2 = 2 := by
  decide

/-- Claim C5 as amended: with a cached client, a successful tool call
logs nothing and a remote failure logs exactly one (error) entry; a
failure during client acquisition yields three log entries in total, two
of them at error level (factory and tool both log); a success that first
constructs the client logs the factory's two info entries. -/
theorem log_policy_amended :
    ((∀ (w : World) (st : ServerState) (arg : String) (c : IotClient) (resp : RemoteResponse),
        st.iot_client = some c →
        w.remote c "get_digital_twin_adapter" arg = Except.ok resp →
        logCount (get_digital_twin_adapter w st arg).2.2 = 0) ∧
      (∀ (w : World) (st : ServerState) (arg : String) (c : IotClient) (resp : RemoteResponse),
        st.iot_client = some c →
        w.remote c "get_digital_twin_instance" arg = Except.ok resp →
        logCount (get_digital_twin_instance w st arg).2.2 = 0) ∧
      (∀ (w : World) (st : ServerState) (arg : String) (c : IotClient) (resp : RemoteResponse),
        st.iot_client = some c →
        w.remote c "get_digital_twin_instance_content" arg = Except.ok resp →
        logCount (get_digital_twin_instance_content w st arg).2.2 = 0) ∧
      (∀ (w : World) (st : ServerState) (arg : String) (c : IotClient) (resp : RemoteResponse),
        st.iot_client = some c →
        w.remote c "get_digital_twin_model" arg = Except.ok resp →
        logCount (get_digital_twin_model w st arg).2.2 = 0) ∧
      (∀ (w : World) (st : ServerState) (arg : String) (c : IotClient) (resp : RemoteResponse),
        st.iot_client = some c →
        w.remote c "get_digital_twin_model_spec" arg = Except.ok resp →
        logCount (get_digital_twin_model_spec w st arg).2.2 = 0) ∧
      (∀ (w : World) (st : ServerState) (arg : String) (c : IotClient) (resp : RemoteResponse),
        st.iot_client = some c →
        w.remote c "get_digital_twin_relationship" arg = Except.ok resp →
        logCount (get_digital_twin_relationship w st arg).2.2 = 0) ∧
      (∀ (w : World) (st : ServerState) (arg : String) (c : IotClient) (resp : RemoteResponse),
        st.iot_client = some c →
        w.remote c "get_iot_domain" arg = Except.ok resp →
        logCount (get_iot_domain w st arg).2.2 = 0) ∧
      (∀ (w : World) (st : ServerState) (arg : String) (c : IotClient) (resp : RemoteResponse),
        st.iot_client = some c →
        w.remote c "get_iot_domain_group" arg = Except.ok resp →
        logCount (get_iot_domain_group w st arg).2.2 = 0) ∧
      (∀ (w : World) (st : ServerState) (arg : String) (c : IotClient) (resp : RemoteResponse),
        st.iot_client = some c →
        w.remote c "get_work_request" arg = Except.ok resp →
        logCount (get_work_request w st arg).2.2 = 0) ∧
      (∀ (w : World) (st : ServerState) (arg : String) (c : IotClient) (resp : RemoteResponse),
        st.iot_client = some c →
        w.remote c "list_digital_twin_adapters" arg = Except.ok resp →
        logCount (list_digital_twin_adapters w st arg).2.2 = 0) ∧
      (∀ (w : World) (st : ServerState) (arg : String) (c : IotClient) (resp : RemoteResponse),
        st.iot_client = some c →
        w.remote c "list_digital_twin_models" arg = Except.ok resp →
        logCount (list_digital_twin_models w st arg).2.2 = 0) ∧
      (∀ (w : World) (st : ServerState) (arg : String) (c : IotClient) (resp : RemoteResponse),
        st.iot_client = some c →
        w.remote c "list_digital_twin_instances" arg = Except.ok resp →
        logCount (list_digital_twin_instances w st arg).2.2 = 0) ∧
      (∀ (w : World) (st : ServerState) (arg : String) (c : IotClient) (resp : RemoteResponse),
        st.iot_client = some c →
        w.remote c "list_digital_twin_relationships" arg = Except.ok resp →
        logCount (list_digital_twin_relationships w st arg).2.2 = 0) ∧
      (∀ (w : World) (st : ServerState) (arg : String) (c : IotClient) (resp : RemoteResponse),
        st.iot_client = some c →
        w.remote c "list_iot_domain_groups" arg = Except.ok resp →
        logCount (list_iot_domain_groups w st arg).2.2 = 0) ∧
      (∀ (w : World) (st : ServerState) (arg : String) (c : IotClient) (resp : RemoteResponse),
        st.iot_client = some c →
        w.remote c "list_iot_domains" arg = Except.ok resp →
        logCount (list_iot_domains w st arg).2.2 = 0) ∧
      (∀ (w : World) (st : ServerState) (arg : String) (c : IotClient) (resp : RemoteResponse),
        st.iot_client = some c →
        w.remote c "list_work_request_errors" arg = Except.ok resp →
        logCount (list_work_request_errors w st arg).2.2 = 0) ∧
      (∀ (w : World) (st : ServerState) (arg : String) (c : IotClient) (resp : RemoteResponse),
        st.iot_client = some c →
        w.remote c "list_work_request_logs" arg = Except.ok resp →
        logCount (list_work_request_logs w st arg).2.2 = 0) ∧
      (∀ (w : World) (st : ServerState) (arg : String) (c : IotClient) (resp : RemoteResponse),
        st.iot_client = some c →
        w.remote c "list_work_requests" arg = Except.ok resp →
        logCount (list_work_requests w st arg).2.2 = 0)) ∧
    ((∀ (w : World) (st : ServerState) (arg : String) (c : IotClient) (e : Exn),
        st.iot_client = some c →
        w.remote c "get_digital_twin_adapter" arg = Except.error e →
        logCount (get_digital_twin_adapter w st arg).2.2 = 1 ∧
        errorLogCount (get_digital_twin_adapter w st arg).2.2 = 1) ∧
      (∀ (w : World) (st : ServerState) (arg : String) (c : IotClient) (e : Exn),
        st.iot_client = some c →
        w.remote c "get_digital_twin_instance" arg = Except.error e →
        logCount (get_digital_twin_instance w st arg).2.2 = 1 ∧
        errorLogCount (get_digital_twin_instance w st arg).2.2 = 1) ∧
      (∀ (w : World) (st : ServerState) (arg : String) (c : IotClient) (e : Exn),
        st.iot_client = some c →
        w.remote c "get_digital_twin_instance_content" arg = Except.error e →
        logCount (get_digital_twin_instance_content w st arg).2.2 = 1 ∧
        errorLogCount (get_digital_twin_instance_content w st arg).2.2 = 1) ∧
      (∀ (w : World) (st : ServerState) (arg : String) (c : IotClient) (e : Exn),
        st.iot_client = some c →
        w.remote c "get_digital_twin_model" arg = Except.error e →
        logCount (get_digital_twin_model w st arg).2.2 = 1 ∧
        errorLogCount (get_digital_twin_model w st arg).2.2 = 1) ∧
      (∀ (w : World) (st : ServerState) (arg : String) (c : IotClient) (e : Exn),
        st.iot_client = some c →
        w.remote c "get_digital_twin_model_spec" arg = Except.error e →
        logCount (get_digital_twin_model_spec w st arg).2.2 = 1 ∧
        errorLogCount (get_digital_twin_model_spec w st arg).2.2 = 1) ∧
      (∀ (w : World) (st : ServerState) (arg : String) (c : IotClient) (e : Exn),
        st.iot_client = some c →
        w.remote c "get_digital_twin_relationship" arg = Except.error e →
        logCount (get_digital_twin_relationship w st arg).2.2 = 1 ∧
        errorLogCount (get_digital_twin_relationship w st arg).2.2 = 1) ∧
      (∀ (w : World) (st : ServerState) (arg : String) (c : IotClient) (e : Exn),
        st.iot_client = some c →
        w.remote c "get_iot_domain" arg = Except.error e →
        logCount (get_iot_domain w st arg).2.2 = 1 ∧
        errorLogCount (get_iot_domain w st arg).2.2 = 1) ∧
      (∀ (w : World) (st : ServerState) (arg : String) (c : IotClient) (e : Exn),
        st.iot_client = some c →
        w.remote c "get_iot_domain_group" arg = Except.error e →
        logCount (get_iot_domain_group w st arg).2.2 = 1 ∧
        errorLogCount (get_iot_domain_group w st arg).2.2 = 1) ∧
      (∀ (w : World) (st : ServerState) (arg : String) (c : IotClient) (e : Exn),
        st.iot_client = some c →
        w.remote c "get_work_request" arg = Except.error e →
        logCount (get_work_request w st arg).2.2 = 1 ∧
        errorLogCount (get_work_request w st arg).2.2 = 1) ∧
      (∀ (w : World) (st : ServerState) (arg : String) (c : IotClient) (e : Exn),
        st.iot_client = some c →
        w.remote c "list_digital_twin_adapters" arg = Except.error e →
        logCount (list_digital_twin_adapters w st arg).2.2 = 1 ∧
        errorLogCount (list_digital_twin_adapters w st arg).2.2 = 1) ∧
      (∀ (w : World) (st : ServerState) (arg : String) (c : IotClient) (e : Exn),
        st.iot_client = some c →
        w.remote c "list_digital_twin_models" arg = Except.error e →
        logCount (list_digital_twin_models w st arg).2.2 = 1 ∧
        errorLogCount (list_digital_twin_models w st arg).2.2 = 1) ∧
      (∀ (w : World) (st : ServerState) (arg : String) (c : IotClient) (e : Exn),
        st.iot_client = some c →
        w.remote c "list_digital_twin_instances" arg = Except.error e →
        logCount (list_digital_twin_instances w st arg).2.2 = 1 ∧
        errorLogCount (list_digital_twin_instances w st arg).2.2 = 1) ∧
      (∀ (w : World) (st : ServerState) (arg : String) (c : IotClient) (e : Exn),
        st.iot_client = some c →
        w.remote c "list_digital_twin_relationships" arg = Except.error e →
        logCount (list_digital_twin_relationships w st arg).2.2 = 1 ∧
        errorLogCount (list_digital_twin_relationships w st arg).2.2 = 1) ∧
      (∀ (w : World) (st : ServerState) (arg : String) (c : IotClient) (e : Exn),
        st.iot_client = some c →
        w.remote c "list_iot_domain_groups" arg = Except.error e →
        logCount (list_iot_domain_groups w st arg).2.2 = 1 ∧
        errorLogCount (list_iot_domain_groups w st arg).2.2 = 1) ∧
      (∀ (w : World) (st : ServerState) (arg : String) (c : IotClient) (e : Exn),
        st.iot_client = some c →
        w.remote c "list_iot_domains" arg = Except.error e →
        logCount (list_iot_domains w st arg).2.2 = 1 ∧
        errorLogCount (list_iot_domains w st arg).2.2 = 1) ∧
      (∀ (w : World) (st : ServerState) (arg : String) (c : IotClient) (e : Exn),
        st.iot_client = some c →
        w.remote c "list_work_request_errors" arg = Except.error e →
        logCount (list_work_request_errors w st arg).2.2 = 1 ∧
        errorLogCount (list_work_request_errors w st arg).2.2 = 1) ∧
      (∀ (w : World) (st : ServerState) (arg : String) (c : IotClient) (e : Exn),
        st.iot_client = some c →
        w.remote c "list_work_request_logs" arg = Except.error e →
        logCount (list_work_request_logs w st arg).2.2 = 1 ∧
        errorLogCount (list_work_request_logs w st arg).2.2 = 1) ∧
      (∀ (w : World) (st : ServerState) (arg : String) (c : IotClient) (e : Exn),
        st.iot_client = some c →
        w.remote c "list_work_requests" arg = Except.error e →
        logCount (list_work_requests w st arg).2.2 = 1 ∧
        errorLogCount (list_work_requests w st arg).2.2 = 1)) ∧
    ((∀ (w : World) (st : ServerState) (arg : String) (e : Exn),
        st.iot_client = none →
        (create_iot_client w "INTWIM-IAD-IOT").1 = Except.error e →
        logCount (get_digital_twin_adapter w st arg).2.2 = 3 ∧
        errorLogCount (get_digital_twin_adapter w st arg).2.2 = 2) ∧
      (∀ (w : World) (st : ServerState) (arg : String) (e : Exn),
        st.iot_client = none →
        (create_iot_client w "INTWIM-IAD-IOT").1 = Except.error e →
        logCount (get_digital_twin_instance w st arg).2.2 = 3 ∧
        errorLogCount (get_digital_twin_instance w st arg).2.2 = 2) ∧
      (∀ (w : World) (st : ServerState) (arg : String) (e : Exn),
        st.iot_client = none →
        (create_iot_client w "INTWIM-IAD-IOT").1 = Except.error e →
        logCount (get_digital_twin_instance_content w st arg).2.2 = 3 ∧
        errorLogCount (get_digital_twin_instance_content w st arg).2.2 = 2) ∧
      (∀ (w : World) (st : ServerState) (arg : String) (e : Exn),
        st.iot_client = none →
        (create_iot_client w "INTWIM-IAD-IOT").1 = Except.error e →
        logCount (get_digital_twin_model w st arg).2.2 = 3 ∧
        errorLogCount (get_digital_twin_model w st arg).2.2 = 2) ∧
      (∀ (w : World) (st : ServerState) (arg : String) (e : Exn),
        st.iot_client = none →
        (create_iot_client w "INTWIM-IAD-IOT").1 = Except.error e →
        logCount (get_digital_twin_model_spec w st arg).2.2 = 3 ∧
        errorLogCount (get_digital_twin_model_spec w st arg).2.2 = 2) ∧
      (∀ (w : World) (st : ServerState) (arg : String) (e : Exn),
        st.iot_client = none →
        (create_iot_client w "INTWIM-IAD-IOT").1 = Except.error e →
        logCount (get_digital_twin_relationship w st arg).2.2 = 3 ∧
        errorLogCount (get_digital_twin_relationship w st arg).2.2 = 2) ∧
      (∀ (w : World) (st : ServerState) (arg : String) (e : Exn),
        st.iot_client = none →
        (create_iot_client w "INTWIM-IAD-IOT").1 = Except.error e →
        logCount (get_iot_domain w st arg).2.2 = 3 ∧
        errorLogCount (get_iot_domain w st arg).2.2 = 2) ∧
      (∀ (w : World) (st : ServerState) (arg : String) (e : Exn),
        st.iot_client = none →
        (create_iot_client w "INTWIM-IAD-IOT").1 = Except.error e →
        logCount (get_iot_domain_group w st arg).2.2 = 3 ∧
        errorLogCount (get_iot_domain_group w st arg).2.2 = 2) ∧
      (∀ (w : World) (st : ServerState) (arg : String) (e : Exn),
        st.iot_client = none →
        (create_iot_client w "INTWIM-IAD-IOT").1 = Except.error e →
        logCount (get_work_request w st arg).2.2 = 3 ∧
        errorLogCount (get_work_request w st arg).2.2 = 2) ∧
      (∀ (w : World) (st : ServerState) (arg : String) (e : Exn),
        st.iot_client = none →
        (create_iot_client w "INTWIM-IAD-IOT").1 = Except.error e →
        logCount (list_digital_twin_adapters w st arg).2.2 = 3 ∧
        errorLogCount (list_digital_twin_adapters w st arg).2.2 = 2) ∧
      (∀ (w : World) (st : ServerState) (arg : String) (e : Exn),
        st.iot_client = none →
        (create_iot_client w "INTWIM-IAD-IOT").1 = Except.error e →
        logCount (list_digital_twin_models w st arg).2.2 = 3 ∧
        errorLogCount (list_digital_twin_models w st arg).2.2 = 2) ∧
      (∀ (w : World) (st : ServerState) (arg : String) (e : Exn),
        st.iot_client = none →
        (create_iot_client w "INTWIM-IAD-IOT").1 = Except.error e →
        logCount (list_digital_twin_instances w st arg).2.2 = 3 ∧
        errorLogCount (list_digital_twin_instances w st arg).2.2 = 2) ∧
      (∀ (w : World) (st : ServerState) (arg : String) (e : Exn),
        st.iot_client = none →
        (create_iot_client w "INTWIM-IAD-IOT").1 = Except.error e →
        logCount (list_digital_twin_relationships w st arg).2.2 = 3 ∧
        errorLogCount (list_digital_twin_relationships w st arg).2.2 = 2) ∧
      (∀ (w : World) (st : ServerState) (arg : String) (e : Exn),
        st.iot_client = none →
        (create_iot_client w "INTWIM-IAD-IOT").1 = Except.error e →
        logCount (list_iot_domain_groups w st arg).2.2 = 3 ∧
        errorLogCount (list_iot_domain_groups w st arg).2.2 = 2) ∧
      (∀ (w : World) (st : ServerState) (arg : String) (e : Exn),
        st.iot_client = none →
        (create_iot_client w "INTWIM-IAD-IOT").1 = Except.error e →
        logCount (list_iot_domains w st arg).2.2 = 3 ∧
        errorLogCount (list_iot_domains w st arg).2.2 = 2) ∧
      (∀ (w : World) (st : ServerState) (arg : String) (e : Exn),
        st.iot_client = none →
        (create_iot_client w "INTWIM-IAD-IOT").1 = Except.error e →
        logCount (list_work_request_errors w st arg).2.2 = 3 ∧
        errorLogCount (list_work_request_errors w st arg).2.2 = 2) ∧
      (∀ (w : World) (st : ServerState) (arg : String) (e : Exn),
        st.iot_client = none →
        (create_iot_client w "INTWIM-IAD-IOT").1 = Except.error e →
        logCount (list_work_request_logs w st arg).2.2 = 3 ∧
        errorLogCount (list_work_request_logs w st arg).2.2 = 2) ∧
      (∀ (w : World) (st : ServerState) (arg : String) (e : Exn),
        st.iot_client = none →
        (create_iot_client w "INTWIM-IAD-IOT").1 = Except.error e →
        logCount (list_work_requests w st arg).2.2 = 3 ∧
        errorLogCount (list_work_requests w st arg).2.2 = 2)) ∧
    ((∀ (w : World) (st : ServerState) (arg : String) (c : IotClient)
        (effs0 : List Effect) (resp : RemoteResponse),
        st.iot_client = none →
        create_iot_client w "INTWIM-IAD-IOT" = (Except.ok c, effs0) →
        w.remote c "get_digital_twin_adapter" arg = Except.ok resp →
        logCount (get_digital_twin_adapter w st arg).2.2 = 2 ∧
        errorLogCount (get_digital_twin_adapter w st arg).2.2 = 0) ∧
      (∀ (w : World) (st : ServerState) (arg : String) (c : IotClient)
        (effs0 : List Effect) (resp : RemoteResponse),
        st.iot_client = none →
        create_iot_client w "INTWIM-IAD-IOT" = (Except.ok c, effs0) →
        w.remote c "get_digital_twin_instance" arg = Except.ok resp →
        logCount (get_digital_twin_instance w st arg).2.2 = 2 ∧
        errorLogCount (get_digital_twin_instance w st arg).2.2 = 0) ∧
      (∀ (w : World) (st : ServerState) (arg : String) (c : IotClient)
        (effs0 : List Effect) (resp : RemoteResponse),
        st.iot_client = none →
        create_iot_client w "INTWIM-IAD-IOT" = (Except.ok c, effs0) →
        w.remote c "get_digital_twin_instance_content" arg = Except.ok resp →
        logCount (get_digital_twin_instance_content w st arg).2.2 = 2 ∧
        errorLogCount (get_digital_twin_instance_content w st arg).2.2 = 0) ∧
      (∀ (w : World) (st : ServerState) (arg : String) (c : IotClient)
        (effs0 : List Effect) (resp : RemoteResponse),
        st.iot_client = none →
        create_iot_client w "INTWIM-IAD-IOT" = (Except.ok c, effs0) →
        w.remote c "get_digital_twin_model" arg = Except.ok resp →
        logCount (get_digital_twin_model w st arg).2.2 = 2 ∧
        errorLogCount (get_digital_twin_model w st arg).2.2 = 0) ∧
      (∀ (w : World) (st : ServerState) (arg : String) (c : IotClient)
        (effs0 : List Effect) (resp : RemoteResponse),
        st.iot_client = none →
        create_iot_client w "INTWIM-IAD-IOT" = (Except.ok c, effs0) →
        w.remote c "get_digital_twin_model_spec" arg = Except.ok resp →
        logCount (get_digital_twin_model_spec w st arg).2.2 = 2 ∧
        errorLogCount (get_digital_twin_model_spec w st arg).2.2 = 0) ∧
      (∀ (w : World) (st : ServerState) (arg : String) (c : IotClient)
        (effs0 : List Effect) (resp : RemoteResponse),
        st.iot_client = none →
        create_iot_client w "INTWIM-IAD-IOT" = (Except.ok c, effs0) →
        w.remote c "get_digital_twin_relationship" arg = Except.ok resp →
        logCount (get_digital_twin_relationship w st arg).2.2 = 2 ∧
        errorLogCount (get_digital_twin_relationship w st arg).2.2 = 0) ∧
      (∀ (w : World) (st : ServerState) (arg : String) (c : IotClient)
        (effs0 : List Effect) (resp : RemoteResponse),
        st.iot_client = none →
        create_iot_client w "INTWIM-IAD-IOT" = (Except.ok c, effs0) →
        w.remote c "get_iot_domain" arg = Except.ok resp →
        logCount (get_iot_domain w st arg).2.2 = 2 ∧
        errorLogCount (get_iot_domain w st arg).2.2 = 0) ∧
      (∀ (w : World) (st : ServerState) (arg : String) (c : IotClient)
        (effs0 : List Effect) (resp : RemoteResponse),
        st.iot_client = none →
        create_iot_client w "INTWIM-IAD-IOT" = (Except.ok c, effs0) →
        w.remote c "get_iot_domain_group" arg = Except.ok resp →
        logCount (get_iot_domain_group w st arg).2.2 = 2 ∧
        errorLogCount (get_iot_domain_group w st arg).2.2 = 0) ∧
      (∀ (w : World) (st : ServerState) (arg : String) (c : IotClient)
        (effs0 : List Effect) (resp : RemoteResponse),
        st.iot_client = none →
        create_iot_client w "INTWIM-IAD-IOT" = (Except.ok c, effs0) →
        w.remote c "get_work_request" arg = Except.ok resp →
        logCount (get_work_request w st arg).2.2 = 2 ∧
        errorLogCount (get_work_request w st arg).2.2 = 0) ∧
      (∀ (w : World) (st : ServerState) (arg : String) (c : IotClient)
        (effs0 : List Effect) (resp : RemoteResponse),
        st.iot_client = none →
        create_iot_client w "INTWIM-IAD-IOT" = (Except.ok c, effs0) →
        w.remote c "list_digital_twin_adapters" arg = Except.ok resp →
        logCount (list_digital_twin_adapters w st arg).2.2 = 2 ∧
        errorLogCount (list_digital_twin_adapters w st arg).2.2 = 0) ∧
      (∀ (w : World) (st : ServerState) (arg : String) (c : IotClient)
        (effs0 : List Effect) (resp : RemoteResponse),
        st.iot_client = none →
        create_iot_client w "INTWIM-IAD-IOT" = (Except.ok c, effs0) →
        w.remote c "list_digital_twin_models" arg = Except.ok resp →
        logCount (list_digital_twin_models w st arg).2.2 = 2 ∧
        errorLogCount (list_digital_twin_models w st arg).2.2 = 0) ∧
      (∀ (w : World) (st : ServerState) (arg : String) (c : IotClient)
        (effs0 : List Effect) (resp : RemoteResponse),
        st.iot_client = none →
        create_iot_client w "INTWIM-IAD-IOT" = (Except.ok c, effs0) →
        w.remote c "list_digital_twin_instances" arg = Except.ok resp →
        logCount (list_digital_twin_instances w st arg).2.2 = 2 ∧
        errorLogCount (list_digital_twin_instances w st arg).2.2 = 0) ∧
      (∀ (w : World) (st : ServerState) (arg : String) (c : IotClient)
        (effs0 : List Effect) (resp : RemoteResponse),
        st.iot_client = none →
        create_iot_client w "INTWIM-IAD-IOT" = (Except.ok c, effs0) →
        w.remote c "list_digital_twin_relationships" arg = Except.ok resp →
        logCount (list_digital_twin_relationships w st arg).2.2 = 2 ∧
        errorLogCount (list_digital_twin_relationships w st arg).2.2 = 0) ∧
      (∀ (w : World) (st : ServerState) (arg : String) (c : IotClient)
        (effs0 : List Effect) (resp : RemoteResponse),
        st.iot_client = none →
        create_iot_client w "INTWIM-IAD-IOT" = (Except.ok c, effs0) →
        w.remote c "list_iot_domain_groups" arg = Except.ok resp →
        logCount (list_iot_domain_groups w st arg).2.2 = 2 ∧
        errorLogCount (list_iot_domain_groups w st arg).2.2 = 0) ∧
      (∀ (w : World) (st : ServerState) (arg : String) (c : IotClient)
        (effs0 : List Effect) (resp : RemoteResponse),
        st.iot_client = none →
        create_iot_client w "INTWIM-IAD-IOT" = (Except.ok c, effs0) →
        w.remote c "list_iot_domains" arg = Except.ok resp →
        logCount (list_iot_domains w st arg).2.2 = 2 ∧
        errorLogCount (list_iot_domains w st arg).2.2 = 0) ∧
      (∀ (w : World) (st : ServerState) (arg : String) (c : IotClient)
        (effs0 : List Effect) (resp : RemoteResponse),
        st.iot_client = none →
        create_iot_client w "INTWIM-IAD-IOT" = (Except.ok c, effs0) →
        w.remote c "list_work_request_errors" arg = Except.ok resp →
        logCount (list_work_request_errors w st arg).2.2 = 2 ∧
        errorLogCount (list_work_request_errors w st arg).2.2 = 0) ∧
      (∀ (w : World) (st : ServerState) (arg : String) (c : IotClient)
        (effs0 : List Effect) (resp : RemoteResponse),
        st.iot_client = none →
        create_iot_client w "INTWIM-IAD-IOT" = (Except.ok c, effs0) →
        w.remote c "list_work_request_logs" arg = Except.ok resp →
        logCount (list_work_request_logs w st arg).2.2 = 2 ∧
        errorLogCount (list_work_request_logs w st arg).2.2 = 0) ∧
      (∀ (w : World) (st : ServerState) (arg : String) (c : IotClient)
        (effs0 : List Effect) (resp : RemoteResponse),
        st.iot_client = none →
        create_iot_client w "INTWIM-IAD-IOT" = (Except.ok c, effs0) →
        w.remote c "list_work_requests" arg = Except.ok resp →
        logCount (list_work_requests w st arg).2.2 = 2 ∧
        errorLogCount (list_work_requests w st arg).2.2 = 0)) := by
  refine ⟨?_, ?_, ?_, ?_⟩
  · refine ⟨?_, ?_, ?_, ?_, ?_, ?_, ?_, ?_, ?_, ?_, ?_, ?_, ?_, ?_, ?_, ?_, ?_, ?_⟩
    all_goals
      intro w st arg c resp h1 h2
      have hg := get_iot_client_cached w defaultProfileArg st c h1
      simp only [get_digital_twin_adapter_eq_toolRun, get_digital_twin_instance_eq_toolRun, get_digital_twin_instance_content_eq_toolRun, get_digital_twin_model_eq_toolRun, get_digital_twin_model_spec_eq_toolRun, get_digital_twin_relationship_eq_toolRun, get_iot_domain_eq_toolRun, get_iot_domain_group_eq_toolRun, get_work_request_eq_toolRun, list_digital_twin_adapters_eq_toolRun, list_digital_twin_models_eq_toolRun, list_digital_twin_instances_eq_toolRun, list_digital_twin_relationships_eq_toolRun, list_iot_domain_groups_eq_toolRun, list_iot_domains_eq_toolRun, list_work_request_errors_eq_toolRun, list_work_request_logs_eq_toolRun, list_work_requests_eq_toolRun]
      rw [toolRun_eq_remote_ok _ _ w st st arg c (envEffect defaultProfileArg) resp hg h2]
      rfl
  · refine ⟨?_, ?_, ?_, ?_, ?_, ?_, ?_, ?_, ?_, ?_, ?_, ?_, ?_, ?_, ?_, ?_, ?_, ?_⟩
    all_goals
      intro w st arg c e h1 h2
      have hg := get_iot_client_cached w defaultProfileArg st c h1
      simp only [get_digital_twin_adapter_eq_toolRun, get_digital_twin_instance_eq_toolRun, get_digital_twin_instance_content_eq_toolRun, get_digital_twin_model_eq_toolRun, get_digital_twin_model_spec_eq_toolRun, get_digital_twin_relationship_eq_toolRun, get_iot_domain_eq_toolRun, get_iot_domain_group_eq_toolRun, get_work_request_eq_toolRun, list_digital_twin_adapters_eq_toolRun, list_digital_twin_models_eq_toolRun, list_digital_twin_instances_eq_toolRun, list_digital_twin_relationships_eq_toolRun, list_iot_domain_groups_eq_toolRun, list_iot_domains_eq_toolRun, list_work_request_errors_eq_toolRun, list_work_request_logs_eq_toolRun, list_work_requests_eq_toolRun]
      rw [toolRun_eq_remote_error _ _ w st st arg c (envEffect defaultProfileArg) e hg h2]
      exact ⟨rfl, rfl⟩
  · refine ⟨?_, ?_, ?_, ?_, ?_, ?_, ?_, ?_, ?_, ?_, ?_, ?_, ?_, ?_, ?_, ?_, ?_, ?_⟩
    all_goals
      intro w st arg e h1 h2
      rcases hc : create_iot_client w "INTWIM-IAD-IOT" with ⟨r, effs0⟩
      have hr1 : r = Except.error e := by rw [hc] at h2; exact h2
      subst hr1
      have hg := get_iot_client_uncached_error w defaultProfileArg st e effs0 h1 hc
      have hcl : logCount effs0 = 2 := by
        have hh := create_iot_client_logCount w "INTWIM-IAD-IOT"
        rw [hc] at hh
        exact hh
      have hce : errorLogCount effs0 = 1 := by
        have hh := create_iot_client_errorLogCount w "INTWIM-IAD-IOT"
        rw [hc] at hh
        exact hh
      simp only [get_digital_twin_adapter_eq_toolRun, get_digital_twin_instance_eq_toolRun, get_digital_twin_instance_content_eq_toolRun, get_digital_twin_model_eq_toolRun, get_digital_twin_model_spec_eq_toolRun, get_digital_twin_relationship_eq_toolRun, get_iot_domain_eq_toolRun, get_iot_domain_group_eq_toolRun, get_work_request_eq_toolRun, list_digital_twin_adapters_eq_toolRun, list_digital_twin_models_eq_toolRun, list_digital_twin_instances_eq_toolRun, list_digital_twin_relationships_eq_toolRun, list_iot_domain_groups_eq_toolRun, list_iot_domains_eq_toolRun, list_work_request_errors_eq_toolRun, list_work_request_logs_eq_toolRun, list_work_requests_eq_toolRun]
      rw [toolRun_eq_acq_error _ _ w st st arg e (envEffect defaultProfileArg ++ effs0) hg]
      exact ⟨by
          show logCount ((envEffect defaultProfileArg ++ effs0) ++ [Effect.logError _]) = 3
          rw [logCount_append, logCount_append, hcl]
          rfl,
        by
          show errorLogCount ((envEffect defaultProfileArg ++ effs0) ++ [Effect.logError _]) = 2
          rw [errorLogCount_append, errorLogCount_append, hce]
          rfl⟩
  · refine ⟨?_, ?_, ?_, ?_, ?_, ?_, ?_, ?_, ?_, ?_, ?_, ?_, ?_, ?_, ?_, ?_, ?_, ?_⟩
    all_goals
      intro w st arg c effs0 resp h1 hc h2
      have hg := get_iot_client_uncached_ok w defaultProfileArg st c effs0 h1 hc
      have hcl : logCount effs0 = 2 := by
        have hh := create_iot_client_logCount w "INTWIM-IAD-IOT"
        rw [hc] at hh
        exact hh
      have hce : errorLogCount effs0 = 0 := by
        have hh := create_iot_client_errorLogCount w "INTWIM-IAD-IOT"
        rw [hc] at hh
        exact hh
      simp only [get_digital_twin_adapter_eq_toolRun, get_digital_twin_instance_eq_toolRun, get_digital_twin_instance_content_eq_toolRun, get_digital_twin_model_eq_toolRun, get_digital_twin_model_spec_eq_toolRun, get_digital_twin_relationship_eq_toolRun, get_iot_domain_eq_toolRun, get_iot_domain_group_eq_toolRun, get_work_request_eq_toolRun, list_digital_twin_adapters_eq_toolRun, list_digital_twin_models_eq_toolRun, list_digital_twin_instances_eq_toolRun, list_digital_twin_relationships_eq_toolRun, list_iot_domain_groups_eq_toolRun, list_iot_domains_eq_toolRun, list_work_request_errors_eq_toolRun, list_work_request_logs_eq_toolRun, list_work_requests_eq_toolRun]
      rw [toolRun_eq_remote_ok _ _ w st ⟨some c⟩ arg c (envEffect defaultProfileArg ++ effs0) resp hg h2]
      exact ⟨by
          show logCount ((envEffect defaultProfileArg ++ effs0) ++ [Effect.remoteCall _ arg]) = 2
          rw [logCount_append, logCount_append, hcl]
          rfl,
        by
          show errorLogCount ((envEffect defaultProfileArg ++ effs0) ++ [Effect.remoteCall _ arg]) = 0
          rw [errorLogCount_append, errorLogCount_append, hce]
          rfl⟩

/-- Witness for the amended C5 at concrete inputs. -/
theorem log_policy_amended_witness :
    logCount (get_iot_domain wOk stCached "d-1").2.2 = 0 ∧
    (logCount (get_work_request wNoConfig st0 "wr-1").2.2 = 3 ∧
      errorLogCount (get_work_request wNoConfig st0 "wr-1").2.2 = 2) :=
  ⟨log_policy_amended.1.2.2.2.2.2.2.1 wOk stCached "d-1" cachedClient
      ⟨200, Datum.obj "get_iot_domain:d-1"⟩ rfl (by decide),
   log_policy_amended.2.2.1.2.2.2.2.2.2.2.2.1 wNoConfig st0 "wr-1" exnMissing rfl (by decide)⟩

end OciIotMcp
